import Mathlib

/-!
# go-subsonic, `lists.go`: request shaping for the list endpoints

A shallow embedding of `validateListType`, `GetAlbumList`, `GetAlbumList2`,
`GetRandomSongs`, `GetSongsByGenre` and `GetNowPlaying`, followed by the
properties established about them.

Conventions of the embedding

* A Go `map[string]T` value is `GoMap T`: either the nil map or an allocated
  table of entries with pairwise distinct keys.  The order of the entry list
  stands for the order in which `range` visits the entries during the call;
  Go leaves that order unspecified, and every statement below is proved for
  every table, hence for every order.
* A Go slice value is `GoSlice T`: either the nil slice or a list.
* A Go `error` value is `GoError`, identified by the text of its `Error()`.
* The operations run in a state monad whose state is the list of transport
  calls issued so far, so that "no call" and "exactly one call" are statements
  about that list.
* For the effect of a call on the caller's own map, the three operations that
  build a parameter map are embedded a second time (`InMemory`), with maps as
  references into a memory of allocated maps; the two embeddings are proved to
  return the same results and to issue the same calls.
-/

namespace Subsonic

/-! ## Go maps -/

/-- Keys of an entry list, in order. -/
def keysOf {β : Type} (es : List (String × β)) : List String :=
  es.map Prod.fst

/-- Lookup of a key in an entry list: the value of the first entry with that key. -/
def getEntry {β : Type} (k : String) : List (String × β) → Option β
  | [] => none
  | (k', v') :: es => if k' = k then some v' else getEntry k es

/-- Assignment to a key in an entry list: the entry with that key gets the new
value, or a new entry is added when no entry has the key. -/
def setEntry {β : Type} (k : String) (v : β) : List (String × β) → List (String × β)
  | [] => [(k, v)]
  | (k', v') :: es => if k' = k then (k', v) :: es else (k', v') :: setEntry k v es

theorem keysOf_setEntry_of_mem {β : Type} (k : String) (v : β) :
    ∀ es : List (String × β), k ∈ keysOf es → keysOf (setEntry k v es) = keysOf es
  | [], h => by simp [keysOf] at h
  | (k', v') :: es, h => by
    by_cases hk : k' = k
    · simp [setEntry, hk, keysOf]
    · have hmem : k ∈ keysOf es := by
        simp only [keysOf, List.map_cons, List.mem_cons] at h
        rcases h with h | h
        · exact absurd h.symm hk
        · exact h
      have ih := keysOf_setEntry_of_mem k v es hmem
      simp only [keysOf] at ih
      simp [setEntry, hk, keysOf, ih]

theorem keysOf_setEntry_of_not_mem {β : Type} (k : String) (v : β) :
    ∀ es : List (String × β), k ∉ keysOf es → keysOf (setEntry k v es) = keysOf es ++ [k]
  | [], _ => by simp [setEntry, keysOf]
  | (k', v') :: es, h => by
    have hk : ¬ k' = k := by
      intro hk
      exact h (by simp [keysOf, hk])
    have hmem : k ∉ keysOf es := by
      intro hm
      exact h (by simp only [keysOf, List.map_cons, List.mem_cons]; exact Or.inr hm)
    have ih := keysOf_setEntry_of_not_mem k v es hmem
    simp only [keysOf] at ih
    simp [setEntry, hk, keysOf, ih]

theorem nodup_keysOf_setEntry {β : Type} (k : String) (v : β) (es : List (String × β))
    (h : (keysOf es).Nodup) : (keysOf (setEntry k v es)).Nodup := by
  by_cases hk : k ∈ keysOf es
  · rw [keysOf_setEntry_of_mem k v es hk]
    exact h
  · rw [keysOf_setEntry_of_not_mem k v es hk]
    exact List.Nodup.append h (List.nodup_singleton k) (by simpa using hk)

/-- An allocated Go map with string keys: a list of entries whose keys are
pairwise distinct. -/
structure Table (β : Type) where
  entries : List (String × β)
  nodup : (keysOf entries).Nodup
deriving DecidableEq

/-- The Go expression `make(map[string]T)`: a fresh table without entries. -/
def Table.make {β : Type} : Table β :=
  ⟨[], List.nodup_nil⟩

/-- The Go statement `m[k] = v` on an allocated map. -/
def Table.set {β : Type} (m : Table β) (k : String) (v : β) : Table β :=
  ⟨setEntry k v m.entries, nodup_keysOf_setEntry k v m.entries m.nodup⟩

/-- The Go expression `m[k]` in its two-valued form `v, ok := m[k]` on an
allocated map: `some v` when `ok`, `none` otherwise. -/
def Table.get {β : Type} (m : Table β) (k : String) : Option β :=
  getEntry k m.entries

/-- A Go value of type `map[string]T`: `none` is the nil map. -/
abbrev GoMap (β : Type) := Option (Table β)

/-- The Go expression `m[k]` in its two-valued form `v, ok := m[k]`; reading a
nil map finds no key. -/
def GoMap.get {β : Type} (m : GoMap β) (k : String) : Option β :=
  match m with
  | none => none
  | some t => t.get k

/-- The entries a `for k, v := range m` loop visits, in the order of the visit;
ranging over a nil map visits nothing. -/
def GoMap.range {β : Type} (m : GoMap β) : List (String × β) :=
  match m with
  | none => []
  | some t => t.entries

/-- A Go slice value: `none` is the nil slice. -/
abbrev GoSlice (α : Type) := Option (List α)

/-! ## Go errors -/

/-- A Go `error` value, identified by the text its `Error()` method returns. -/
structure GoError where
  text : String
deriving DecidableEq

namespace errors

/-- The Go function `errors.New`. -/
def New (text : String) : GoError :=
  ⟨text⟩

end errors

namespace fmt

/-- The Go call `fmt.Errorf(format, arg)` for a format string with the single
verb `%s`: `before` is the text of the format in front of the verb, `after` the
text behind it, and the string argument is put in place of the verb. -/
def Errorf (before : String) (arg : String) (after : String) : GoError :=
  ⟨before ++ arg ++ after⟩

end fmt

/-! ## `validateListType` -/

/-- The map literal `validTypes` of `validateListType`. -/
def validTypes : Table Bool :=
  ⟨[("random", true),
    ("newest", true),
    ("highest", true),
    ("frequent", true),
    ("recent", true),
    ("alphabeticalByName", true),
    ("alphabeticalByArtist", true),
    ("starred", true),
    ("byYear", true),
    ("byGenre", true)], by decide⟩

/-- The Go function `validateListType`: `_, ok := validTypes[input]; return ok`. -/
def validateListType (input : String) : Bool :=
  let ok := (validTypes.get input).isSome
  ok

/-! ## The response envelope and the transport -/

/-- Modelled from the spec: an envelope sub-section holding a sequence of
albums (the declaration of the type lies outside `lists.go`). -/
structure AlbumSection (Album : Type) where
  Albums : GoSlice Album

/-- Modelled from the spec: an envelope sub-section holding a sequence of
songs (the declaration of the type lies outside `lists.go`). -/
structure SongSection (Song : Type) where
  Songs : GoSlice Song

/-- Modelled from the spec: the envelope sub-section holding the sequence of
now-playing entries (the declaration of the type lies outside `lists.go`). -/
structure EntrySection (NowPlaying : Type) where
  Entries : GoSlice NowPlaying

/-- Modelled from the spec: the response envelope `Response`, with the five
named sub-sections that `lists.go` reads (the declaration of the type lies
outside `lists.go`).  The entity types are parameters. -/
structure Response (Album Song NowPlaying : Type) where
  AlbumList : AlbumSection Album
  AlbumList2 : AlbumSection Album
  RandomSongs : SongSection Song
  SongsByGenre : SongSection Song
  NowPlaying : EntrySection NowPlaying

/-- One call of the transport: the endpoint name and the parameter map handed
to it. -/
structure Call where
  endpoint : String
  params : GoMap String
deriving DecidableEq

/-- The client `SubsonicClient`.  Its method `Get` is declared outside
`lists.go`; what it answers to an endpoint name and a parameter map is the
field `transport`, a response envelope together with an error (`none` is the
nil error). -/
structure SubsonicClient (Album Song NowPlaying : Type) where
  transport : String → GoMap String → Response Album Song NowPlaying × Option GoError

variable {Album Song NowPlaying : Type}

/-- The method call `s.Get(endpoint, params)`: the call is recorded in the list
of transport calls and the answer of the transport is returned. -/
def SubsonicClient.Get (s : SubsonicClient Album Song NowPlaying) (endpoint : String)
    (params : GoMap String) :
    StateM (List Call) (Response Album Song NowPlaying × Option GoError) := do
  modify fun calls => calls ++ [⟨endpoint, params⟩]
  pure (s.transport endpoint params)

/-! ## The five operations -/

/-- The Go method `GetAlbumList`. -/
def SubsonicClient.GetAlbumList (s : SubsonicClient Album Song NowPlaying) (listType : String)
    (parameters : GoMap String) : StateM (List Call) (GoSlice Album × Option GoError) := do
  if !validateListType listType then
    return (none, some (fmt.Errorf "List type " listType
      " is invalid, see http://www.subsonic.org/pages/api.jsp#getAlbumList"))
  if listType = "byYear" then
    let ok := (parameters.get "fromYear").isSome
    if !ok then
      return (none, some (errors.New
        "Required argument fromYear was not found when using GetAlbumList byYear"))
    let ok := (parameters.get "toYear").isSome
    if !ok then
      return (none, some (errors.New
        "Required argument toYear was not found when using GetAlbumList byYear"))
  else if listType = "byGenre" then
    let ok := (parameters.get "genre").isSome
    if !ok then
      return (none, some (errors.New
        "Required argument genre was not found when using GetAlbumList byGenre"))
  let mut params : Table String := Table.make
  params := params.set "type" listType
  for (k, v) in parameters.range do
    params := params.set k v
  let (resp, err) ← s.Get "getAlbumList" (some params)
  if err.isSome then
    return (none, err)
  return (resp.AlbumList.Albums, none)

/-- The Go method `GetAlbumList2`. -/
def SubsonicClient.GetAlbumList2 (s : SubsonicClient Album Song NowPlaying) (listType : String)
    (parameters : GoMap String) : StateM (List Call) (GoSlice Album × Option GoError) := do
  if !validateListType listType then
    return (none, some (fmt.Errorf "List type " listType
      " is invalid, see http://www.subsonic.org/pages/api.jsp#getAlbumList"))
  if listType = "byYear" then
    let ok := (parameters.get "fromYear").isSome
    if !ok then
      return (none, some (errors.New
        "Required argument fromYear was not found when using GetAlbumList2 byYear"))
    let ok := (parameters.get "toYear").isSome
    if !ok then
      return (none, some (errors.New
        "Required argument toYear was not found when using GetAlbumList2 byYear"))
  else if listType = "byGenre" then
    let ok := (parameters.get "genre").isSome
    if !ok then
      return (none, some (errors.New
        "Required argument genre was not found when using GetAlbumList2 byGenre"))
  let mut params : Table String := Table.make
  params := params.set "type" listType
  for (k, v) in parameters.range do
    params := params.set k v
  let (resp, err) ← s.Get "getAlbumList2" (some params)
  if err.isSome then
    return (none, err)
  return (resp.AlbumList2.Albums, none)

/-- The Go method `GetRandomSongs`. -/
def SubsonicClient.GetRandomSongs (s : SubsonicClient Album Song NowPlaying)
    (parameters : GoMap String) : StateM (List Call) (GoSlice Song × Option GoError) := do
  let (resp, err) ← s.Get "getRandomSongs" parameters
  if err.isSome then
    return (none, err)
  return (resp.RandomSongs.Songs, none)

/-- The Go method `GetSongsByGenre`. -/
def SubsonicClient.GetSongsByGenre (s : SubsonicClient Album Song NowPlaying) (name : String)
    (parameters : GoMap String) : StateM (List Call) (GoSlice Song × Option GoError) := do
  let mut params : Table String := Table.make
  params := params.set "genre" name
  for (k, v) in parameters.range do
    params := params.set k v
  let (resp, err) ← s.Get "getSongsByGenre" (some params)
  if err.isSome then
    return (none, err)
  return (resp.SongsByGenre.Songs, none)

/-- The Go method `GetNowPlaying`. -/
def SubsonicClient.GetNowPlaying (s : SubsonicClient Album Song NowPlaying) :
    StateM (List Call) (GoSlice NowPlaying × Option GoError) := do
  let (resp, err) ← s.Get "getNowPlaying" none
  if err.isSome then
    return (none, err)
  return (resp.NowPlaying.Entries, none)

/-! ## Auxiliary definitions for the statements -/

/-- The table a `range` loop of assignments `params[k] = v` over the entries
`es` leaves behind, started on the table `params`. -/
def assignAll (params : Table String) (es : List (String × String)) : Table String :=
  es.foldl (fun p kv => p.set kv.1 kv.2) params

/-- The closing lines shared by the five operations: with the answer
`(resp, err)` of the transport, `if err != nil { return nil, err }` and else
the return of the sub-section `project resp` with a nil error. -/
def answer {R α : Type} (project : R → GoSlice α) (r : R × Option GoError) :
    GoSlice α × Option GoError :=
  if r.2.isSome then (none, r.2) else (project r.1, none)

/-- A response envelope for the examples. -/
def stubResponse : Response String String String :=
  ⟨⟨some ["album-1", "album-2"]⟩, ⟨some ["album-3"]⟩, ⟨some ["song-1"]⟩,
    ⟨some ["song-2", "song-3"]⟩, ⟨some []⟩⟩

/-- A transport stub that succeeds on every call with `stubResponse`. -/
def stubClient : SubsonicClient String String String :=
  ⟨fun _ _ => (stubResponse, none)⟩

/-- A transport stub that fails on every call with the same error. -/
def failingClient : SubsonicClient String String String :=
  ⟨fun _ _ => (⟨⟨none⟩, ⟨none⟩, ⟨none⟩, ⟨none⟩, ⟨none⟩⟩, some ⟨"connection refused"⟩)⟩

/-- The table `{"type": "newest"}`. -/
def typeNewest : Table String :=
  ⟨[("type", "newest")], by decide⟩

/-- Caller parameters `{"type": "newest"}`. -/
def callerWithType : GoMap String :=
  some typeNewest

/-- The table `{"genre": "Jazz"}`. -/
def genreJazz : Table String :=
  ⟨[("genre", "Jazz")], by decide⟩

/-- Caller parameters `{"genre": "Jazz"}`. -/
def callerWithGenre : GoMap String :=
  some genreJazz

/-- Caller parameters `{"count": "5"}`. -/
def callerWithCount : GoMap String :=
  some ⟨[("count", "5")], by decide⟩

/-- An allocated map without entries, as caller parameters. -/
def callerEmpty : GoMap String :=
  some Table.make

/-- Caller parameters `{"fromYear": "1990", "toYear": "2000"}`. -/
def callerWithYears : GoMap String :=
  some ⟨[("fromYear", "1990"), ("toYear", "2000")], by decide⟩

/-- Caller parameters `{"toYear": "2000"}`. -/
def callerWithToYear : GoMap String :=
  some ⟨[("toYear", "2000")], by decide⟩

/-- The text `part` occurs in `text` as a contiguous piece. -/
def Mentions (text part : String) : Prop :=
  ∃ before after : String, text = before ++ part ++ after

/-! ## Maps as references into a memory

The operations above take the caller's map as a value.  To state what a call
does to the caller's map itself, the three operations that build a parameter
map are embedded a second time, with maps as references into a memory of
allocated maps: the address `a` names the table at position `a` of the memory,
`make` allocates at the next free address and `m[k] = v` replaces the table at
the address of `m`. -/

/-- The memory of a run: the allocated maps, by address, and the transport
calls issued so far. -/
structure Memory where
  maps : List (Table String)
  calls : List Call

/-- A Go value of type `map[string]string` as a reference: `none` is the nil
map, `some a` the map allocated at address `a`. -/
abbrev MapRef := Option Nat

/-- The content of the map a reference points to. -/
def Memory.deref (m : Memory) (r : MapRef) : GoMap String :=
  match r with
  | none => none
  | some a => m.maps.get? a

/-- The tables of a memory after the assignment `m[k] = v` to the map at
address `a`. -/
def assignAt (a : Nat) (k v : String) : List (Table String) → List (Table String)
  | [] => []
  | t :: ts =>
    match a with
    | 0 => t.set k v :: ts
    | a + 1 => t :: assignAt a k v ts

namespace InMemory

/-- The Go expression `make(map[string]string)`: a table without entries is
allocated at the next free address, which is returned. -/
def make : StateM Memory Nat := do
  let m ← get
  set { m with maps := m.maps ++ [Table.make] }
  pure m.maps.length

/-- The Go statement `m[k] = v` for the map at address `a`. -/
def assign (a : Nat) (k v : String) : StateM Memory Unit :=
  modify fun m => { m with maps := assignAt a k v m.maps }

/-- The Go expression `m[k]` in its two-valued form `v, ok := m[k]`. -/
def index (r : MapRef) (k : String) : StateM Memory (Option String) := do
  let m ← get
  pure ((m.deref r).get k)

/-- The entries a `for k, v := range m` loop visits. -/
def range (r : MapRef) : StateM Memory (List (String × String)) := do
  let m ← get
  pure (m.deref r).range

/-- The method call `s.Get(endpoint, params)`: the call is recorded with the
content of the map handed over, and the answer of the transport to that content
is returned. -/
def Get (s : SubsonicClient Album Song NowPlaying) (endpoint : String) (params : MapRef) :
    StateM Memory (Response Album Song NowPlaying × Option GoError) := do
  let m ← get
  set { m with calls := m.calls ++ [Call.mk endpoint (m.deref params)] }
  pure (s.transport endpoint (m.deref params))

/-- The Go method `GetAlbumList`, on references. -/
def GetAlbumList (s : SubsonicClient Album Song NowPlaying) (listType : String)
    (parameters : MapRef) : StateM Memory (GoSlice Album × Option GoError) := do
  if !validateListType listType then
    return (none, some (fmt.Errorf "List type " listType
      " is invalid, see http://www.subsonic.org/pages/api.jsp#getAlbumList"))
  if listType = "byYear" then
    let ok := (← index parameters "fromYear").isSome
    if !ok then
      return (none, some (errors.New
        "Required argument fromYear was not found when using GetAlbumList byYear"))
    let ok := (← index parameters "toYear").isSome
    if !ok then
      return (none, some (errors.New
        "Required argument toYear was not found when using GetAlbumList byYear"))
  else if listType = "byGenre" then
    let ok := (← index parameters "genre").isSome
    if !ok then
      return (none, some (errors.New
        "Required argument genre was not found when using GetAlbumList byGenre"))
  let params ← make
  assign params "type" listType
  for (k, v) in (← range parameters) do
    assign params k v
  let (resp, err) ← Get s "getAlbumList" (some params)
  if err.isSome then
    return (none, err)
  return (resp.AlbumList.Albums, none)

/-- The Go method `GetAlbumList2`, on references. -/
def GetAlbumList2 (s : SubsonicClient Album Song NowPlaying) (listType : String)
    (parameters : MapRef) : StateM Memory (GoSlice Album × Option GoError) := do
  if !validateListType listType then
    return (none, some (fmt.Errorf "List type " listType
      " is invalid, see http://www.subsonic.org/pages/api.jsp#getAlbumList"))
  if listType = "byYear" then
    let ok := (← index parameters "fromYear").isSome
    if !ok then
      return (none, some (errors.New
        "Required argument fromYear was not found when using GetAlbumList2 byYear"))
    let ok := (← index parameters "toYear").isSome
    if !ok then
      return (none, some (errors.New
        "Required argument toYear was not found when using GetAlbumList2 byYear"))
  else if listType = "byGenre" then
    let ok := (← index parameters "genre").isSome
    if !ok then
      return (none, some (errors.New
        "Required argument genre was not found when using GetAlbumList2 byGenre"))
  let params ← make
  assign params "type" listType
  for (k, v) in (← range parameters) do
    assign params k v
  let (resp, err) ← Get s "getAlbumList2" (some params)
  if err.isSome then
    return (none, err)
  return (resp.AlbumList2.Albums, none)

/-- The Go method `GetSongsByGenre`, on references. -/
def GetSongsByGenre (s : SubsonicClient Album Song NowPlaying) (name : String)
    (parameters : MapRef) : StateM Memory (GoSlice Song × Option GoError) := do
  let params ← make
  assign params "genre" name
  for (k, v) in (← range parameters) do
    assign params k v
  let (resp, err) ← Get s "getSongsByGenre" (some params)
  if err.isSome then
    return (none, err)
  return (resp.SongsByGenre.Songs, none)

end InMemory

/-- A memory for the examples: the caller's map `{"genre": "Jazz"}` at address
0, the caller's map `{"type": "newest"}` at address 1, no transport calls. -/
def callerMemory : Memory :=
  ⟨[genreJazz, typeNewest], []⟩

/-! ## Lemmas on maps -/

theorem getEntry_setEntry_self {β : Type} (k : String) (v : β) :
    ∀ es : List (String × β), getEntry k (setEntry k v es) = some v
  | [] => by simp [setEntry, getEntry]
  | (k', v') :: es => by
    by_cases hk : k' = k
    · simp [setEntry, getEntry, hk]
    · simp [setEntry, getEntry, hk, getEntry_setEntry_self k v es]

theorem getEntry_setEntry_of_ne {β : Type} (k j : String) (v : β) (h : j ≠ k) :
    ∀ es : List (String × β), getEntry j (setEntry k v es) = getEntry j es
  | [] => by simp [setEntry, getEntry, h.symm]
  | (k', v') :: es => by
    by_cases hk : k' = k
    · subst hk
      simp [setEntry, getEntry, h.symm]
    · by_cases hj : k' = j
      · subst hj
        simp [setEntry, getEntry, h]
      · simp [setEntry, getEntry, hk, hj, getEntry_setEntry_of_ne k j v h es]

theorem getEntry_eq_none_iff {β : Type} (k : String) :
    ∀ es : List (String × β), getEntry k es = none ↔ k ∉ keysOf es
  | [] => by simp [getEntry, keysOf]
  | (k', v') :: es => by
    have ih := getEntry_eq_none_iff k es
    simp only [keysOf] at ih
    by_cases hk : k' = k
    · simp [getEntry, keysOf, hk]
    · have hk' : ¬ k = k' := fun h => hk h.symm
      simp [getEntry, keysOf, hk, hk', ih]

theorem setEntry_of_not_mem {β : Type} (k : String) (v : β) :
    ∀ es : List (String × β), k ∉ keysOf es → setEntry k v es = es ++ [(k, v)]
  | [], _ => by simp [setEntry]
  | (k', v') :: es, h => by
    have hk : ¬ k' = k := by
      intro hk
      exact h (by simp [keysOf, hk])
    have hmem : k ∉ keysOf es := by
      intro hm
      exact h (by simp only [keysOf, List.map_cons, List.mem_cons]; exact Or.inr hm)
    simp [setEntry, hk, setEntry_of_not_mem k v es hmem]

theorem Table.get_set_self (m : Table String) (k v : String) : (m.set k v).get k = some v :=
  getEntry_setEntry_self k v m.entries

theorem Table.get_set_of_ne (m : Table String) (k j v : String) (h : j ≠ k) :
    (m.set k v).get j = m.get j :=
  getEntry_setEntry_of_ne k j v h m.entries

theorem Table.ext_entries {β : Type} (a b : Table β) (h : a.entries = b.entries) : a = b := by
  cases a
  cases b
  cases h
  rfl

theorem GoMap.get_eq_getEntry_range (m : GoMap String) (k : String) :
    m.get k = getEntry k m.range := by
  cases m <;> rfl

theorem GoMap.nodup_range (m : GoMap String) : (keysOf m.range).Nodup := by
  cases m with
  | none => exact List.nodup_nil
  | some t => exact t.nodup

theorem get_assignAll_of_none (k : String) :
    ∀ (es : List (String × String)) (params : Table String),
      getEntry k es = none → (assignAll params es).get k = params.get k
  | [], _, _ => rfl
  | (k', v') :: es, params, h => by
    have hk : ¬ k' = k := by
      intro hk
      simp [getEntry, hk] at h
    have hrest : getEntry k es = none := by
      simpa [getEntry, hk] using h
    have ih := get_assignAll_of_none k es (params.set k' v') hrest
    have hstep : assignAll params ((k', v') :: es) = assignAll (params.set k' v') es := rfl
    rw [hstep, ih]
    exact Table.get_set_of_ne params k' k v' (fun h => hk h.symm)

theorem get_assignAll_of_some (k v : String) :
    ∀ (es : List (String × String)) (params : Table String),
      (keysOf es).Nodup → getEntry k es = some v → (assignAll params es).get k = some v
  | [], _, _, h => by simp [getEntry] at h
  | (k', v') :: es, params, hn, h => by
    have hstep : assignAll params ((k', v') :: es) = assignAll (params.set k' v') es := rfl
    have hn' : k' ∉ keysOf es ∧ (keysOf es).Nodup := by
      simpa [keysOf] using hn
    rw [hstep]
    by_cases hk : k' = k
    · subst hk
      have hv : v' = v := by simpa [getEntry] using h
      subst hv
      have hnone : getEntry k' es = none := (getEntry_eq_none_iff k' es).mpr hn'.1
      rw [get_assignAll_of_none k' es _ hnone]
      exact Table.get_set_self params k' v'
    · have hrest : getEntry k es = some v := by
        simpa [getEntry, hk] using h
      exact get_assignAll_of_some k v es _ hn'.2 hrest

theorem entries_assignAll_of_disjoint :
    ∀ (es : List (String × String)) (params : Table String),
      (keysOf es).Nodup → (∀ k, k ∈ keysOf es → k ∉ keysOf params.entries) →
        (assignAll params es).entries = params.entries ++ es
  | [], _, _, _ => by simp [assignAll]
  | (k', v') :: es, params, hn, hd => by
    have hstep : assignAll params ((k', v') :: es) = assignAll (params.set k' v') es := rfl
    have hn' : k' ∉ keysOf es ∧ (keysOf es).Nodup := by
      simpa [keysOf] using hn
    have hk' : k' ∉ keysOf params.entries := hd k' (by simp [keysOf])
    have hset : (params.set k' v').entries = params.entries ++ [(k', v')] :=
      setEntry_of_not_mem k' v' params.entries hk'
    have hd' : ∀ k, k ∈ keysOf es → k ∉ keysOf (params.set k' v').entries := by
      intro k hk hmem
      rw [hset] at hmem
      simp only [keysOf, List.map_append, List.map_cons, List.map_nil, List.mem_append,
        List.mem_singleton] at hmem
      rcases hmem with hmem | hmem
      · exact hd k (by simp only [keysOf, List.map_cons, List.mem_cons]; exact Or.inr hk) hmem
      · subst hmem
        exact hn'.1 hk
    rw [hstep, entries_assignAll_of_disjoint es _ hn'.2 hd', hset]
    simp

/-! ## The operations as case distinctions -/

theorem forIn_assign (es : List (String × String)) (params : Table String) :
    (forIn es params (fun x r =>
        match x with
        | (k, v) =>
          let params := r
          let params := params.set k v
          do
            pure PUnit.unit
            pure (ForInStep.yield params)) : StateM (List Call) (Table String))
      = pure (assignAll params es) := by
  induction es generalizing params with
  | nil => simp [assignAll]
  | cons e es ih =>
    obtain ⟨k, v⟩ := e
    rw [List.forIn_cons]
    simp only [pure_bind]
    exact ih (params.set k v)

theorem validateListType_iff (input : String) :
    validateListType input = true ↔
      input ∈ ["random", "newest", "highest", "frequent", "recent", "alphabeticalByName",
        "alphabeticalByArtist", "starred", "byYear", "byGenre"] := by
  simp only [validateListType, validTypes, Table.get, getEntry]
  constructor
  · intro h
    split_ifs at h <;> simp_all
  · intro h
    simp only [List.mem_cons, List.mem_singleton, List.not_mem_nil, or_false] at h
    rcases h with h | h | h | h | h | h | h | h | h | h <;> subst h <;> decide

theorem GetAlbumList_run (s : SubsonicClient Album Song NowPlaying) (listType : String)
    (parameters : GoMap String) (log : List Call) :
    (s.GetAlbumList listType parameters).run log =
      if validateListType listType = false then
        ((none, some (fmt.Errorf "List type " listType
          " is invalid, see http://www.subsonic.org/pages/api.jsp#getAlbumList")), log)
      else if listType = "byYear" ∧ parameters.get "fromYear" = none then
        ((none, some (errors.New
          "Required argument fromYear was not found when using GetAlbumList byYear")), log)
      else if listType = "byYear" ∧ parameters.get "toYear" = none then
        ((none, some (errors.New
          "Required argument toYear was not found when using GetAlbumList byYear")), log)
      else if listType = "byGenre" ∧ parameters.get "genre" = none then
        ((none, some (errors.New
          "Required argument genre was not found when using GetAlbumList byGenre")), log)
      else
        (answer (fun r => r.AlbumList.Albums) (s.transport "getAlbumList"
            (some (assignAll (Table.make.set "type" listType) parameters.range))),
          log ++ [⟨"getAlbumList",
            some (assignAll (Table.make.set "type" listType) parameters.range)⟩]) := by
  simp only [SubsonicClient.GetAlbumList, forIn_assign]
  by_cases hv : validateListType listType = false
  · simp [hv]
  · by_cases hy : listType = "byYear"
    · subst hy
      cases hf : parameters.get "fromYear" <;> cases ht : parameters.get "toYear" <;>
        simp [hv, hf, ht, SubsonicClient.Get, answer]
      split <;> simp [*]
    · by_cases hg : listType = "byGenre"
      · subst hg
        cases hf : parameters.get "genre" <;> simp [hv, hy, SubsonicClient.Get, answer]
        split <;> simp [*]
      · simp [hv, hy, hg, SubsonicClient.Get, answer]
        split <;> simp [*]

theorem GetAlbumList2_run (s : SubsonicClient Album Song NowPlaying) (listType : String)
    (parameters : GoMap String) (log : List Call) :
    (s.GetAlbumList2 listType parameters).run log =
      if validateListType listType = false then
        ((none, some (fmt.Errorf "List type " listType
          " is invalid, see http://www.subsonic.org/pages/api.jsp#getAlbumList")), log)
      else if listType = "byYear" ∧ parameters.get "fromYear" = none then
        ((none, some (errors.New
          "Required argument fromYear was not found when using GetAlbumList2 byYear")), log)
      else if listType = "byYear" ∧ parameters.get "toYear" = none then
        ((none, some (errors.New
          "Required argument toYear was not found when using GetAlbumList2 byYear")), log)
      else if listType = "byGenre" ∧ parameters.get "genre" = none then
        ((none, some (errors.New
          "Required argument genre was not found when using GetAlbumList2 byGenre")), log)
      else
        (answer (fun r => r.AlbumList2.Albums) (s.transport "getAlbumList2"
            (some (assignAll (Table.make.set "type" listType) parameters.range))),
          log ++ [⟨"getAlbumList2",
            some (assignAll (Table.make.set "type" listType) parameters.range)⟩]) := by
  simp only [SubsonicClient.GetAlbumList2, forIn_assign]
  by_cases hv : validateListType listType = false
  · simp [hv]
  · by_cases hy : listType = "byYear"
    · subst hy
      cases hf : parameters.get "fromYear" <;> cases ht : parameters.get "toYear" <;>
        simp [hv, hf, ht, SubsonicClient.Get, answer]
      split <;> simp [*]
    · by_cases hg : listType = "byGenre"
      · subst hg
        cases hf : parameters.get "genre" <;> simp [hv, hy, SubsonicClient.Get, answer]
        split <;> simp [*]
      · simp [hv, hy, hg, SubsonicClient.Get, answer]
        split <;> simp [*]

theorem GetRandomSongs_run (s : SubsonicClient Album Song NowPlaying)
    (parameters : GoMap String) (log : List Call) :
    (s.GetRandomSongs parameters).run log =
      (answer (fun r => r.RandomSongs.Songs) (s.transport "getRandomSongs" parameters),
        log ++ [⟨"getRandomSongs", parameters⟩]) := by
  simp [SubsonicClient.GetRandomSongs, SubsonicClient.Get, answer]
  split <;> simp [*]

theorem GetSongsByGenre_run (s : SubsonicClient Album Song NowPlaying) (name : String)
    (parameters : GoMap String) (log : List Call) :
    (s.GetSongsByGenre name parameters).run log =
      (answer (fun r => r.SongsByGenre.Songs) (s.transport "getSongsByGenre"
          (some (assignAll (Table.make.set "genre" name) parameters.range))),
        log ++ [⟨"getSongsByGenre",
          some (assignAll (Table.make.set "genre" name) parameters.range)⟩]) := by
  simp only [SubsonicClient.GetSongsByGenre, forIn_assign]
  simp [SubsonicClient.Get, answer]
  split <;> simp [*]

theorem GetNowPlaying_run (s : SubsonicClient Album Song NowPlaying) (log : List Call) :
    s.GetNowPlaying.run log =
      (answer (fun r => r.NowPlaying.Entries) (s.transport "getNowPlaying" none),
        log ++ [⟨"getNowPlaying", none⟩]) := by
  simp [SubsonicClient.GetNowPlaying, SubsonicClient.Get, answer]
  split <;> simp [*]

theorem get_type_albumParams (listType : String) (parameters : GoMap String) :
    (assignAll (Table.make.set "type" listType) parameters.range).get "type" =
      some ((parameters.get "type").getD listType) := by
  rw [GoMap.get_eq_getEntry_range]
  cases h : getEntry "type" parameters.range with
  | none =>
    rw [get_assignAll_of_none "type" _ _ h]
    exact Table.get_set_self _ _ _
  | some v =>
    rw [get_assignAll_of_some "type" v _ _ (GoMap.nodup_range parameters) h]
    rfl

theorem get_genre_songParams (name : String) (parameters : GoMap String) :
    (assignAll (Table.make.set "genre" name) parameters.range).get "genre" =
      some ((parameters.get "genre").getD name) := by
  rw [GoMap.get_eq_getEntry_range]
  cases h : getEntry "genre" parameters.range with
  | none =>
    rw [get_assignAll_of_none "genre" _ _ h]
    exact Table.get_set_self _ _ _
  | some v =>
    rw [get_assignAll_of_some "genre" v _ _ (GoMap.nodup_range parameters) h]
    rfl

theorem append_singleton_ne_self {α : Type} (l : List α) (a : α) : l ++ [a] ≠ l := by
  intro h
  have := congrArg List.length h
  simp at this

theorem pair_append_singleton_ne {α : Type} (a b : α) (log : List Call) (c : Call) :
    (a, log ++ [c]) ≠ (b, log) :=
  fun h => append_singleton_ne_self log c (congrArg Prod.snd h)

theorem GetAlbumList_run_of_valid (s : SubsonicClient Album Song NowPlaying) (listType : String)
    (parameters : GoMap String) (log : List Call)
    (hv : listType ∈ ["random", "newest", "highest", "frequent", "recent", "alphabeticalByName",
      "alphabeticalByArtist", "starred", "byYear", "byGenre"])
    (hy : listType = "byYear" →
      parameters.get "fromYear" ≠ none ∧ parameters.get "toYear" ≠ none)
    (hg : listType = "byGenre" → parameters.get "genre" ≠ none) :
    (s.GetAlbumList listType parameters).run log =
      (answer (fun r => r.AlbumList.Albums) (s.transport "getAlbumList"
          (some (assignAll (Table.make.set "type" listType) parameters.range))),
        log ++ [⟨"getAlbumList",
          some (assignAll (Table.make.set "type" listType) parameters.range)⟩]) := by
  have hv' : ¬ validateListType listType = false := by
    simp [(validateListType_iff listType).mpr hv]
  have h1 : ¬ (listType = "byYear" ∧ parameters.get "fromYear" = none) :=
    fun h => (hy h.1).1 h.2
  have h2 : ¬ (listType = "byYear" ∧ parameters.get "toYear" = none) :=
    fun h => (hy h.1).2 h.2
  have h3 : ¬ (listType = "byGenre" ∧ parameters.get "genre" = none) :=
    fun h => hg h.1 h.2
  rw [GetAlbumList_run, if_neg hv', if_neg h1, if_neg h2, if_neg h3]

theorem GetAlbumList2_run_of_valid (s : SubsonicClient Album Song NowPlaying)
    (listType : String) (parameters : GoMap String) (log : List Call)
    (hv : listType ∈ ["random", "newest", "highest", "frequent", "recent", "alphabeticalByName",
      "alphabeticalByArtist", "starred", "byYear", "byGenre"])
    (hy : listType = "byYear" →
      parameters.get "fromYear" ≠ none ∧ parameters.get "toYear" ≠ none)
    (hg : listType = "byGenre" → parameters.get "genre" ≠ none) :
    (s.GetAlbumList2 listType parameters).run log =
      (answer (fun r => r.AlbumList2.Albums) (s.transport "getAlbumList2"
          (some (assignAll (Table.make.set "type" listType) parameters.range))),
        log ++ [⟨"getAlbumList2",
          some (assignAll (Table.make.set "type" listType) parameters.range)⟩]) := by
  have hv' : ¬ validateListType listType = false := by
    simp [(validateListType_iff listType).mpr hv]
  have h1 : ¬ (listType = "byYear" ∧ parameters.get "fromYear" = none) :=
    fun h => (hy h.1).1 h.2
  have h2 : ¬ (listType = "byYear" ∧ parameters.get "toYear" = none) :=
    fun h => (hy h.1).2 h.2
  have h3 : ¬ (listType = "byGenre" ∧ parameters.get "genre" = none) :=
    fun h => hg h.1 h.2
  rw [GetAlbumList2_run, if_neg hv', if_neg h1, if_neg h2, if_neg h3]

/-! ## Independence of the history of calls -/

theorem run_twice {α : Type} (x : StateM (List Call) α) (r : α) (cs : List Call)
    (h : ∀ log, x.run log = (r, log ++ cs)) (log : List Call) :
    (x >>= fun a => x >>= fun b => pure (a, b)).run log = ((r, r), log ++ cs ++ cs) := by
  have h1 : x log = (r, log ++ cs) := h log
  have h2 : x (log ++ cs) = (r, log ++ cs ++ cs) := h (log ++ cs)
  show (x >>= fun a => x >>= fun b => pure (a, b)) log = ((r, r), log ++ cs ++ cs)
  simp only [bind, StateT.bind, h1, h2, pure, StateT.pure]

theorem GetAlbumList_run_append (s : SubsonicClient Album Song NowPlaying) (listType : String)
    (parameters : GoMap String) :
    ∃ (r : GoSlice Album × Option GoError) (cs : List Call),
      ∀ log, (s.GetAlbumList listType parameters).run log = (r, log ++ cs) := by
  by_cases hv : validateListType listType = false
  · exact ⟨_, [], fun log => by rw [GetAlbumList_run, if_pos hv, List.append_nil]⟩
  · by_cases h1 : listType = "byYear" ∧ parameters.get "fromYear" = none
    · exact ⟨_, [], fun log => by rw [GetAlbumList_run, if_neg hv, if_pos h1, List.append_nil]⟩
    · by_cases h2 : listType = "byYear" ∧ parameters.get "toYear" = none
      · exact ⟨_, [], fun log => by
          rw [GetAlbumList_run, if_neg hv, if_neg h1, if_pos h2, List.append_nil]⟩
      · by_cases h3 : listType = "byGenre" ∧ parameters.get "genre" = none
        · exact ⟨_, [], fun log => by
            rw [GetAlbumList_run, if_neg hv, if_neg h1, if_neg h2, if_pos h3, List.append_nil]⟩
        · exact ⟨_, _, fun log => by
            rw [GetAlbumList_run, if_neg hv, if_neg h1, if_neg h2, if_neg h3]⟩

theorem GetAlbumList2_run_append (s : SubsonicClient Album Song NowPlaying) (listType : String)
    (parameters : GoMap String) :
    ∃ (r : GoSlice Album × Option GoError) (cs : List Call),
      ∀ log, (s.GetAlbumList2 listType parameters).run log = (r, log ++ cs) := by
  by_cases hv : validateListType listType = false
  · exact ⟨_, [], fun log => by rw [GetAlbumList2_run, if_pos hv, List.append_nil]⟩
  · by_cases h1 : listType = "byYear" ∧ parameters.get "fromYear" = none
    · exact ⟨_, [], fun log => by rw [GetAlbumList2_run, if_neg hv, if_pos h1, List.append_nil]⟩
    · by_cases h2 : listType = "byYear" ∧ parameters.get "toYear" = none
      · exact ⟨_, [], fun log => by
          rw [GetAlbumList2_run, if_neg hv, if_neg h1, if_pos h2, List.append_nil]⟩
      · by_cases h3 : listType = "byGenre" ∧ parameters.get "genre" = none
        · exact ⟨_, [], fun log => by
            rw [GetAlbumList2_run, if_neg hv, if_neg h1, if_neg h2, if_pos h3, List.append_nil]⟩
        · exact ⟨_, _, fun log => by
            rw [GetAlbumList2_run, if_neg hv, if_neg h1, if_neg h2, if_neg h3]⟩

/-! ## Every run returns a result or an error -/

theorem answer_result_or_error {R α : Type} (project : R → GoSlice α)
    (r : R × Option GoError) :
    (∃ e, answer project r = (none, some e)) ∨ (∃ x, answer project r = (x, none)) := by
  cases h : r.2 with
  | none => exact Or.inr ⟨project r.1, by simp [answer, h]⟩
  | some e => exact Or.inl ⟨e, by simp [answer, h]⟩

theorem run_answer_result_or_error {R α : Type} (project : R → GoSlice α)
    (r : R × Option GoError) (cs : List Call) :
    (∃ e, (answer project r, cs).1 = (none, some e)) ∨
    (∃ x, (answer project r, cs).1 = (x, none)) :=
  answer_result_or_error project r

theorem GetAlbumList_result_or_error (s : SubsonicClient Album Song NowPlaying)
    (listType : String) (parameters : GoMap String) (log : List Call) :
    (∃ e, ((s.GetAlbumList listType parameters).run log).1 = (none, some e)) ∨
    (∃ x, ((s.GetAlbumList listType parameters).run log).1 = (x, none)) := by
  rw [GetAlbumList_run]
  by_cases hv : validateListType listType = false
  · rw [if_pos hv]
    exact Or.inl ⟨_, rfl⟩
  · rw [if_neg hv]
    by_cases h1 : listType = "byYear" ∧ parameters.get "fromYear" = none
    · rw [if_pos h1]
      exact Or.inl ⟨_, rfl⟩
    · rw [if_neg h1]
      by_cases h2 : listType = "byYear" ∧ parameters.get "toYear" = none
      · rw [if_pos h2]
        exact Or.inl ⟨_, rfl⟩
      · rw [if_neg h2]
        by_cases h3 : listType = "byGenre" ∧ parameters.get "genre" = none
        · rw [if_pos h3]
          exact Or.inl ⟨_, rfl⟩
        · rw [if_neg h3]
          exact run_answer_result_or_error _ _ _

theorem GetAlbumList2_result_or_error (s : SubsonicClient Album Song NowPlaying)
    (listType : String) (parameters : GoMap String) (log : List Call) :
    (∃ e, ((s.GetAlbumList2 listType parameters).run log).1 = (none, some e)) ∨
    (∃ x, ((s.GetAlbumList2 listType parameters).run log).1 = (x, none)) := by
  rw [GetAlbumList2_run]
  by_cases hv : validateListType listType = false
  · rw [if_pos hv]
    exact Or.inl ⟨_, rfl⟩
  · rw [if_neg hv]
    by_cases h1 : listType = "byYear" ∧ parameters.get "fromYear" = none
    · rw [if_pos h1]
      exact Or.inl ⟨_, rfl⟩
    · rw [if_neg h1]
      by_cases h2 : listType = "byYear" ∧ parameters.get "toYear" = none
      · rw [if_pos h2]
        exact Or.inl ⟨_, rfl⟩
      · rw [if_neg h2]
        by_cases h3 : listType = "byGenre" ∧ parameters.get "genre" = none
        · rw [if_pos h3]
          exact Or.inl ⟨_, rfl⟩
        · rw [if_neg h3]
          exact run_answer_result_or_error _ _ _

/-! ## The operations on references, as case distinctions -/

theorem assignAt_append_length (k v : String) (t : Table String) :
    ∀ h : List (Table String), assignAt h.length k v (h ++ [t]) = h ++ [t.set k v]
  | [] => rfl
  | t' :: h => by
    show t' :: assignAt h.length k v (h ++ [t]) = t' :: (h ++ [t.set k v])
    rw [assignAt_append_length k v t h]

theorem get?_append_length (t : Table String) (h : List (Table String)) :
    (h ++ [t]).get? h.length = some t := by
  simp

theorem get?_append_of_lt (t : Table String) (h : List (Table String)) (a : Nat)
    (ha : a < h.length) : (h ++ [t]).get? a = h.get? a := by
  simp [List.getElem?_append_left ha]

theorem make_run (m : Memory) :
    InMemory.make.run m = (m.maps.length, ⟨m.maps ++ [Table.make], m.calls⟩) := rfl

theorem assign_run (a : Nat) (k v : String) (m : Memory) :
    (InMemory.assign a k v).run m = (PUnit.unit, ⟨assignAt a k v m.maps, m.calls⟩) := rfl

theorem index_run (r : MapRef) (k : String) (m : Memory) :
    (InMemory.index r k).run m = ((m.deref r).get k, m) := rfl

theorem range_run (r : MapRef) (m : Memory) :
    (InMemory.range r).run m = ((m.deref r).range, m) := rfl

theorem Get_run (s : SubsonicClient Album Song NowPlaying) (endpoint : String) (r : MapRef)
    (m : Memory) :
    (InMemory.Get s endpoint r).run m =
      (s.transport endpoint (m.deref r),
        ⟨m.maps, m.calls ++ [⟨endpoint, m.deref r⟩]⟩) := rfl

theorem forIn_assign_run (es : List (String × String)) (h : List (Table String))
    (body : String × String → PUnit → StateM Memory (ForInStep PUnit))
    (hbody : ∀ x u m, (body x u).run m =
      (ForInStep.yield PUnit.unit, ⟨assignAt h.length x.1 x.2 m.maps, m.calls⟩))
    (t : Table String) (calls : List Call) :
    (forIn es PUnit.unit body).run ⟨h ++ [t], calls⟩
      = (PUnit.unit, ⟨h ++ [assignAll t es], calls⟩) := by
  induction es generalizing t with
  | nil => rfl
  | cons e es ih =>
    rw [List.forIn_cons, StateT.run_bind, hbody]
    simp only [assignAt_append_length]
    exact ih (t.set e.1 e.2)

theorem deref_append_of_valid (r : MapRef) (m : Memory) (t : Table String)
    (calls : List Call) (hr : ∀ a, r = some a → a < m.maps.length) :
    (Memory.mk (m.maps ++ [t]) calls).deref r = m.deref r := by
  cases r with
  | none => rfl
  | some a => exact get?_append_of_lt t m.maps a (hr a rfl)

theorem deref_append_length (maps : List (Table String)) (t : Table String)
    (calls : List Call) :
    (Memory.mk (maps ++ [t]) calls).deref (some maps.length) = some t :=
  get?_append_length t maps

theorem InMemory_GetSongsByGenre_run (s : SubsonicClient Album Song NowPlaying) (name : String)
    (r : MapRef) (m : Memory) (hr : ∀ a, r = some a → a < m.maps.length) :
    (InMemory.GetSongsByGenre s name r).run m =
      (answer (fun x => x.SongsByGenre.Songs) (s.transport "getSongsByGenre"
          (some (assignAll (Table.make.set "genre" name) (m.deref r).range))),
        ⟨m.maps ++ [assignAll (Table.make.set "genre" name) (m.deref r).range],
          m.calls ++ [⟨"getSongsByGenre",
            some (assignAll (Table.make.set "genre" name) (m.deref r).range)⟩]⟩) := by
  have hloop := fun es => forIn_assign_run es m.maps
    (fun x _ => do
      InMemory.assign m.maps.length x.1 x.2
      pure (ForInStep.yield PUnit.unit))
    (fun _ _ _ => rfl) (Table.make.set "genre" name) m.calls
  simp only [InMemory.GetSongsByGenre, StateT.run_bind, make_run, assign_run, range_run,
    Id.bind_eq, assignAt_append_length, hloop, Get_run, deref_append_length,
    deref_append_of_valid r m _ m.calls hr, answer]
  split <;> simp [*]

theorem InMemory_GetAlbumList_run (s : SubsonicClient Album Song NowPlaying)
    (listType : String) (r : MapRef) (m : Memory) (hr : ∀ a, r = some a → a < m.maps.length) :
    (InMemory.GetAlbumList s listType r).run m =
      if validateListType listType = false then
        ((none, some (fmt.Errorf "List type " listType
          " is invalid, see http://www.subsonic.org/pages/api.jsp#getAlbumList")), m)
      else if listType = "byYear" ∧ (m.deref r).get "fromYear" = none then
        ((none, some (errors.New
          "Required argument fromYear was not found when using GetAlbumList byYear")), m)
      else if listType = "byYear" ∧ (m.deref r).get "toYear" = none then
        ((none, some (errors.New
          "Required argument toYear was not found when using GetAlbumList byYear")), m)
      else if listType = "byGenre" ∧ (m.deref r).get "genre" = none then
        ((none, some (errors.New
          "Required argument genre was not found when using GetAlbumList byGenre")), m)
      else
        (answer (fun x => x.AlbumList.Albums) (s.transport "getAlbumList"
            (some (assignAll (Table.make.set "type" listType) (m.deref r).range))),
          ⟨m.maps ++ [assignAll (Table.make.set "type" listType) (m.deref r).range],
            m.calls ++ [⟨"getAlbumList",
              some (assignAll (Table.make.set "type" listType) (m.deref r).range)⟩]⟩) := by
  have hloop := fun es => forIn_assign_run es m.maps
    (fun x _ => do
      InMemory.assign m.maps.length x.1 x.2
      pure (ForInStep.yield PUnit.unit))
    (fun _ _ _ => rfl) (Table.make.set "type" listType) m.calls
  by_cases hv : validateListType listType = false
  · simp only [InMemory.GetAlbumList, hv, Bool.not_false, if_true, StateT.run_pure]
    rfl
  · have hv' : validateListType listType = true := by simpa using hv
    by_cases hy : listType = "byYear"
    · subst hy
      cases hf : (m.deref r).get "fromYear" <;> cases ht : (m.deref r).get "toYear" <;>
        simp only [InMemory.GetAlbumList, hv', Bool.not_true, Bool.not_false, Bool.false_eq_true,
          if_true, if_false, StateT.run_bind, StateT.run_pure, index_run, Id.bind_eq, Id.pure_eq,
          hf, ht, Option.isSome_some, Option.isSome_none, pure_bind, make_run, assign_run,
          range_run, assignAt_append_length, hloop, Get_run, deref_append_length,
          deref_append_of_valid r m _ m.calls hr, answer, true_and, and_true,
          and_false, false_and, reduceCtorEq]
      have hng : ¬ ("byYear" = "byGenre" ∧ (m.deref r).get "genre" = none) :=
        fun h => absurd h.1 (by decide)
      rw [if_neg hng]
      split <;> rfl
    · by_cases hg : listType = "byGenre"
      · subst hg
        cases hf : (m.deref r).get "genre" <;>
          simp only [InMemory.GetAlbumList, hv', hy, Bool.not_true, Bool.not_false,
            Bool.false_eq_true, if_true, if_false, StateT.run_bind, StateT.run_pure, index_run,
            Id.bind_eq, Id.pure_eq, hf, Option.isSome_some, Option.isSome_none, pure_bind,
            make_run, assign_run, range_run, assignAt_append_length, hloop, Get_run,
            deref_append_length, deref_append_of_valid r m _ m.calls hr, answer,
            true_and, and_true, and_false, false_and, reduceCtorEq]
        split <;> rfl
      · simp only [InMemory.GetAlbumList, hv', hy, hg, Bool.not_true, Bool.not_false,
          Bool.false_eq_true, if_true, if_false, StateT.run_bind, StateT.run_pure, index_run,
          Id.bind_eq, Id.pure_eq, Option.isSome_some, Option.isSome_none, pure_bind,
          make_run, assign_run, range_run, assignAt_append_length, hloop, Get_run,
          deref_append_length, deref_append_of_valid r m _ m.calls hr, answer,
          true_and, and_true, and_false, false_and, reduceCtorEq]
        split <;> rfl

theorem InMemory_GetAlbumList2_run (s : SubsonicClient Album Song NowPlaying)
    (listType : String) (r : MapRef) (m : Memory) (hr : ∀ a, r = some a → a < m.maps.length) :
    (InMemory.GetAlbumList2 s listType r).run m =
      if validateListType listType = false then
        ((none, some (fmt.Errorf "List type " listType
          " is invalid, see http://www.subsonic.org/pages/api.jsp#getAlbumList")), m)
      else if listType = "byYear" ∧ (m.deref r).get "fromYear" = none then
        ((none, some (errors.New
          "Required argument fromYear was not found when using GetAlbumList2 byYear")), m)
      else if listType = "byYear" ∧ (m.deref r).get "toYear" = none then
        ((none, some (errors.New
          "Required argument toYear was not found when using GetAlbumList2 byYear")), m)
      else if listType = "byGenre" ∧ (m.deref r).get "genre" = none then
        ((none, some (errors.New
          "Required argument genre was not found when using GetAlbumList2 byGenre")), m)
      else
        (answer (fun x => x.AlbumList2.Albums) (s.transport "getAlbumList2"
            (some (assignAll (Table.make.set "type" listType) (m.deref r).range))),
          ⟨m.maps ++ [assignAll (Table.make.set "type" listType) (m.deref r).range],
            m.calls ++ [⟨"getAlbumList2",
              some (assignAll (Table.make.set "type" listType) (m.deref r).range)⟩]⟩) := by
  have hloop := fun es => forIn_assign_run es m.maps
    (fun x _ => do
      InMemory.assign m.maps.length x.1 x.2
      pure (ForInStep.yield PUnit.unit))
    (fun _ _ _ => rfl) (Table.make.set "type" listType) m.calls
  by_cases hv : validateListType listType = false
  · simp only [InMemory.GetAlbumList2, hv, Bool.not_false, if_true, StateT.run_pure]
    rfl
  · have hv' : validateListType listType = true := by simpa using hv
    by_cases hy : listType = "byYear"
    · subst hy
      cases hf : (m.deref r).get "fromYear" <;> cases ht : (m.deref r).get "toYear" <;>
        simp only [InMemory.GetAlbumList2, hv', Bool.not_true, Bool.not_false, Bool.false_eq_true,
          if_true, if_false, StateT.run_bind, StateT.run_pure, index_run, Id.bind_eq, Id.pure_eq,
          hf, ht, Option.isSome_some, Option.isSome_none, pure_bind, make_run, assign_run,
          range_run, assignAt_append_length, hloop, Get_run, deref_append_length,
          deref_append_of_valid r m _ m.calls hr, answer, true_and, and_true,
          and_false, false_and, reduceCtorEq]
      have hng : ¬ ("byYear" = "byGenre" ∧ (m.deref r).get "genre" = none) :=
        fun h => absurd h.1 (by decide)
      rw [if_neg hng]
      split <;> rfl
    · by_cases hg : listType = "byGenre"
      · subst hg
        cases hf : (m.deref r).get "genre" <;>
          simp only [InMemory.GetAlbumList2, hv', hy, Bool.not_true, Bool.not_false,
            Bool.false_eq_true, if_true, if_false, StateT.run_bind, StateT.run_pure, index_run,
            Id.bind_eq, Id.pure_eq, hf, Option.isSome_some, Option.isSome_none, pure_bind,
            make_run, assign_run, range_run, assignAt_append_length, hloop, Get_run,
            deref_append_length, deref_append_of_valid r m _ m.calls hr, answer,
            true_and, and_true, and_false, false_and, reduceCtorEq]
        split <;> rfl
      · simp only [InMemory.GetAlbumList2, hv', hy, hg, Bool.not_true, Bool.not_false,
          Bool.false_eq_true, if_true, if_false, StateT.run_bind, StateT.run_pure, index_run,
          Id.bind_eq, Id.pure_eq, Option.isSome_some, Option.isSome_none, pure_bind,
          make_run, assign_run, range_run, assignAt_append_length, hloop, Get_run,
          deref_append_length, deref_append_of_valid r m _ m.calls hr, answer,
          true_and, and_true, and_false, false_and, reduceCtorEq]
        split <;> rfl

theorem unchanged_of_extends (m m2 : Memory) (r : MapRef)
    (hr : ∀ a, r = some a → a < m.maps.length)
    (h : m2 = m ∨ ∃ p calls, m2 = ⟨m.maps ++ [p], calls⟩) :
    m2.deref r = m.deref r ∧ ∀ a, a < m.maps.length → m2.maps.get? a = m.maps.get? a := by
  rcases h with h | ⟨p, calls, h⟩
  · subst h
    exact ⟨rfl, fun _ _ => rfl⟩
  · subst h
    exact ⟨deref_append_of_valid r m p calls hr, fun a ha => get?_append_of_lt p m.maps a ha⟩

theorem InMemory_GetAlbumList_memory (s : SubsonicClient Album Song NowPlaying)
    (listType : String) (r : MapRef) (m : Memory) (hr : ∀ a, r = some a → a < m.maps.length) :
    ((InMemory.GetAlbumList s listType r).run m).2 = m ∨
    ∃ p, ((InMemory.GetAlbumList s listType r).run m).2 =
      ⟨m.maps ++ [p], m.calls ++ [⟨"getAlbumList", some p⟩]⟩ := by
  rw [InMemory_GetAlbumList_run s listType r m hr]
  by_cases hv : validateListType listType = false
  · rw [if_pos hv]
    exact Or.inl rfl
  · rw [if_neg hv]
    by_cases h1 : listType = "byYear" ∧ (m.deref r).get "fromYear" = none
    · rw [if_pos h1]
      exact Or.inl rfl
    · rw [if_neg h1]
      by_cases h2 : listType = "byYear" ∧ (m.deref r).get "toYear" = none
      · rw [if_pos h2]
        exact Or.inl rfl
      · rw [if_neg h2]
        by_cases h3 : listType = "byGenre" ∧ (m.deref r).get "genre" = none
        · rw [if_pos h3]
          exact Or.inl rfl
        · rw [if_neg h3]
          exact Or.inr ⟨_, rfl⟩

theorem InMemory_GetAlbumList2_memory (s : SubsonicClient Album Song NowPlaying)
    (listType : String) (r : MapRef) (m : Memory) (hr : ∀ a, r = some a → a < m.maps.length) :
    ((InMemory.GetAlbumList2 s listType r).run m).2 = m ∨
    ∃ p, ((InMemory.GetAlbumList2 s listType r).run m).2 =
      ⟨m.maps ++ [p], m.calls ++ [⟨"getAlbumList2", some p⟩]⟩ := by
  rw [InMemory_GetAlbumList2_run s listType r m hr]
  by_cases hv : validateListType listType = false
  · rw [if_pos hv]
    exact Or.inl rfl
  · rw [if_neg hv]
    by_cases h1 : listType = "byYear" ∧ (m.deref r).get "fromYear" = none
    · rw [if_pos h1]
      exact Or.inl rfl
    · rw [if_neg h1]
      by_cases h2 : listType = "byYear" ∧ (m.deref r).get "toYear" = none
      · rw [if_pos h2]
        exact Or.inl rfl
      · rw [if_neg h2]
        by_cases h3 : listType = "byGenre" ∧ (m.deref r).get "genre" = none
        · rw [if_pos h3]
          exact Or.inl rfl
        · rw [if_neg h3]
          exact Or.inr ⟨_, rfl⟩

theorem InMemory_GetSongsByGenre_memory (s : SubsonicClient Album Song NowPlaying)
    (name : String) (r : MapRef) (m : Memory) (hr : ∀ a, r = some a → a < m.maps.length) :
    ∃ p, ((InMemory.GetSongsByGenre s name r).run m).2 =
      ⟨m.maps ++ [p], m.calls ++ [⟨"getSongsByGenre", some p⟩]⟩ := by
  rw [InMemory_GetSongsByGenre_run s name r m hr]
  exact ⟨_, rfl⟩

/-- The embedding on references returns what the embedding on values returns
for the content of the caller's map, and issues the same transport calls. -/
theorem InMemory_agrees_with_values (s : SubsonicClient Album Song NowPlaying)
    (listType name : String) (r : MapRef) (m : Memory)
    (hr : ∀ a, r = some a → a < m.maps.length) :
    (((InMemory.GetAlbumList s listType r).run m).1 =
        ((s.GetAlbumList listType (m.deref r)).run m.calls).1 ∧
      ((InMemory.GetAlbumList s listType r).run m).2.calls =
        ((s.GetAlbumList listType (m.deref r)).run m.calls).2) ∧
    (((InMemory.GetAlbumList2 s listType r).run m).1 =
        ((s.GetAlbumList2 listType (m.deref r)).run m.calls).1 ∧
      ((InMemory.GetAlbumList2 s listType r).run m).2.calls =
        ((s.GetAlbumList2 listType (m.deref r)).run m.calls).2) ∧
    (((InMemory.GetSongsByGenre s name r).run m).1 =
        ((s.GetSongsByGenre name (m.deref r)).run m.calls).1 ∧
      ((InMemory.GetSongsByGenre s name r).run m).2.calls =
        ((s.GetSongsByGenre name (m.deref r)).run m.calls).2) := by
  refine ⟨?_, ?_, ?_⟩
  · rw [InMemory_GetAlbumList_run s listType r m hr, GetAlbumList_run]
    by_cases hv : validateListType listType = false
    · rw [if_pos hv, if_pos hv]
      exact ⟨rfl, rfl⟩
    · rw [if_neg hv, if_neg hv]
      by_cases h1 : listType = "byYear" ∧ (m.deref r).get "fromYear" = none
      · rw [if_pos h1, if_pos h1]
        exact ⟨rfl, rfl⟩
      · rw [if_neg h1, if_neg h1]
        by_cases h2 : listType = "byYear" ∧ (m.deref r).get "toYear" = none
        · rw [if_pos h2, if_pos h2]
          exact ⟨rfl, rfl⟩
        · rw [if_neg h2, if_neg h2]
          by_cases h3 : listType = "byGenre" ∧ (m.deref r).get "genre" = none
          · rw [if_pos h3, if_pos h3]
            exact ⟨rfl, rfl⟩
          · rw [if_neg h3, if_neg h3]
            exact ⟨rfl, rfl⟩
  · rw [InMemory_GetAlbumList2_run s listType r m hr, GetAlbumList2_run]
    by_cases hv : validateListType listType = false
    · rw [if_pos hv, if_pos hv]
      exact ⟨rfl, rfl⟩
    · rw [if_neg hv, if_neg hv]
      by_cases h1 : listType = "byYear" ∧ (m.deref r).get "fromYear" = none
      · rw [if_pos h1, if_pos h1]
        exact ⟨rfl, rfl⟩
      · rw [if_neg h1, if_neg h1]
        by_cases h2 : listType = "byYear" ∧ (m.deref r).get "toYear" = none
        · rw [if_pos h2, if_pos h2]
          exact ⟨rfl, rfl⟩
        · rw [if_neg h2, if_neg h2]
          by_cases h3 : listType = "byGenre" ∧ (m.deref r).get "genre" = none
          · rw [if_pos h3, if_pos h3]
            exact ⟨rfl, rfl⟩
          · rw [if_neg h3, if_neg h3]
            exact ⟨rfl, rfl⟩
  · rw [InMemory_GetSongsByGenre_run s name r m hr, GetSongsByGenre_run]
    exact ⟨rfl, rfl⟩

/-! ## Properties of the operations -/

/-- C1, as stated, fails: `GetAlbumList("random", {"type": "newest"})` and
`GetAlbumList2("random", {"type": "newest"})` pass validation and hand the
transport a parameter set that maps `"type"` to the caller's `"newest"`, not to
the list type `"random"`. -/
theorem albumList_type_overridden_by_caller :
    validateListType "random" = true ∧
    ((stubClient.GetAlbumList "random" callerWithType).run []).2 =
      [⟨"getAlbumList", some typeNewest⟩] ∧
    ((stubClient.GetAlbumList2 "random" callerWithType).run []).2 =
      [⟨"getAlbumList2", some typeNewest⟩] ∧
    typeNewest.get "type" = some "newest" ∧
    typeNewest.get "type" ≠ some "random" := by
  decide

/-- C1, amended: for every list type of the enum and every caller parameter
set that passes validation, `GetAlbumList` and `GetAlbumList2` make one
transport call, with the same parameter set, and that set maps `"type"` to the
caller's value for `"type"` when the caller supplied one and to `listType`
otherwise. -/
theorem albumList_type_forwarded (s : SubsonicClient Album Song NowPlaying) (listType : String)
    (parameters : GoMap String) (log : List Call)
    (hv : listType ∈ ["random", "newest", "highest", "frequent", "recent", "alphabeticalByName",
      "alphabeticalByArtist", "starred", "byYear", "byGenre"])
    (hy : listType = "byYear" →
      parameters.get "fromYear" ≠ none ∧ parameters.get "toYear" ≠ none)
    (hg : listType = "byGenre" → parameters.get "genre" ≠ none) :
    ∃ p : Table String,
      ((s.GetAlbumList listType parameters).run log).2 = log ++ [⟨"getAlbumList", some p⟩] ∧
      ((s.GetAlbumList2 listType parameters).run log).2 = log ++ [⟨"getAlbumList2", some p⟩] ∧
      p.get "type" = some ((parameters.get "type").getD listType) := by
  refine ⟨assignAll (Table.make.set "type" listType) parameters.range, ?_, ?_, ?_⟩
  · rw [GetAlbumList_run_of_valid s listType parameters log hv hy hg]
  · rw [GetAlbumList2_run_of_valid s listType parameters log hv hy hg]
  · exact get_type_albumParams listType parameters

/-- Witness of `albumList_type_forwarded`: list type `"random"` with the caller
parameters `{"type": "newest"}`. -/
theorem albumList_type_forwarded_witness :
    "random" ∈ ["random", "newest", "highest", "frequent", "recent", "alphabeticalByName",
      "alphabeticalByArtist", "starred", "byYear", "byGenre"] ∧
    ∃ p : Table String,
      ((stubClient.GetAlbumList "random" callerWithType).run []).2 =
        [] ++ [⟨"getAlbumList", some p⟩] ∧
      ((stubClient.GetAlbumList2 "random" callerWithType).run []).2 =
        [] ++ [⟨"getAlbumList2", some p⟩] ∧
      p.get "type" = some ((callerWithType.get "type").getD "random") :=
  ⟨by decide,
    albumList_type_forwarded stubClient "random" callerWithType [] (by decide) (by decide)
      (by decide)⟩

/-- C2, as stated, fails: `GetSongsByGenre("Rock", {"genre": "Jazz"})` hands
the transport a parameter set that maps `"genre"` to the caller's `"Jazz"`, not
to the name `"Rock"`. -/
theorem songsByGenre_genre_overridden_by_caller :
    ((stubClient.GetSongsByGenre "Rock" callerWithGenre).run []).2 =
      [⟨"getSongsByGenre", some genreJazz⟩] ∧
    genreJazz.get "genre" = some "Jazz" ∧
    genreJazz.get "genre" ≠ some "Rock" := by
  decide

/-- C2, amended: for every genre name and every caller parameter set,
`GetSongsByGenre` makes one transport call, and the parameter set of that call
maps `"genre"` to the caller's value for `"genre"` when the caller supplied one
and to `name` otherwise. -/
theorem songsByGenre_genre_forwarded (s : SubsonicClient Album Song NowPlaying) (name : String)
    (parameters : GoMap String) (log : List Call) :
    ∃ p : Table String,
      ((s.GetSongsByGenre name parameters).run log).2 =
        log ++ [⟨"getSongsByGenre", some p⟩] ∧
      p.get "genre" = some ((parameters.get "genre").getD name) := by
  refine ⟨assignAll (Table.make.set "genre" name) parameters.range, ?_, ?_⟩
  · rw [GetSongsByGenre_run]
  · exact get_genre_songParams name parameters

/-- C3: for every string that is not one of the ten list types and every
parameter set, `GetAlbumList` and `GetAlbumList2` return a nil result with the
error "List type ... is invalid, ..." and leave the list of transport calls as
it was. -/
theorem albumList_invalid_type_rejected (s : SubsonicClient Album Song NowPlaying)
    (listType : String) (parameters : GoMap String) (log : List Call)
    (h : listType ∉ ["random", "newest", "highest", "frequent", "recent", "alphabeticalByName",
      "alphabeticalByArtist", "starred", "byYear", "byGenre"]) :
    (s.GetAlbumList listType parameters).run log =
      ((none, some (fmt.Errorf "List type " listType
        " is invalid, see http://www.subsonic.org/pages/api.jsp#getAlbumList")), log) ∧
    (s.GetAlbumList2 listType parameters).run log =
      ((none, some (fmt.Errorf "List type " listType
        " is invalid, see http://www.subsonic.org/pages/api.jsp#getAlbumList")), log) := by
  have hv : validateListType listType = false := by
    cases hb : validateListType listType with
    | false => rfl
    | true => exact absurd ((validateListType_iff listType).mp hb) h
  constructor
  · rw [GetAlbumList_run, if_pos hv]
  · rw [GetAlbumList2_run, if_pos hv]

/-- Witness of `albumList_invalid_type_rejected`: the list type `"Random"`,
which differs from the enum member `"random"` in case only. -/
theorem albumList_invalid_type_rejected_witness :
    "Random" ∉ ["random", "newest", "highest", "frequent", "recent", "alphabeticalByName",
      "alphabeticalByArtist", "starred", "byYear", "byGenre"] ∧
    (stubClient.GetAlbumList "Random" callerEmpty).run [] =
      ((none, some (fmt.Errorf "List type " "Random"
        " is invalid, see http://www.subsonic.org/pages/api.jsp#getAlbumList")), []) ∧
    (stubClient.GetAlbumList2 "Random" callerEmpty).run [] =
      ((none, some (fmt.Errorf "List type " "Random"
        " is invalid, see http://www.subsonic.org/pages/api.jsp#getAlbumList")), []) :=
  ⟨by decide, albumList_invalid_type_rejected stubClient "Random" callerEmpty [] (by decide)⟩

/-- C6: `validateListType` returns true exactly on the ten tags `random`,
`newest`, `highest`, `frequent`, `recent`, `alphabeticalByName`,
`alphabeticalByArtist`, `starred`, `byYear`, `byGenre`, compared as strings
(hence with case). -/
theorem validateListType_true_iff_member (input : String) :
    validateListType input = true ↔
      input ∈ ["random", "newest", "highest", "frequent", "recent", "alphabeticalByName",
        "alphabeticalByArtist", "starred", "byYear", "byGenre"] :=
  validateListType_iff input

/-- C4: with list type `"byYear"`, `GetAlbumList` and `GetAlbumList2` return a
nil result with one of the two errors "Required argument fromYear/toYear was
not found ..." and make no transport call if and only if the key `"fromYear"`
or the key `"toYear"` is absent from the parameter set; when both keys are
present, whatever their values, each makes its transport call. -/
theorem albumList_byYear_requires_years (s : SubsonicClient Album Song NowPlaying)
    (parameters : GoMap String) (log : List Call) :
    (((s.GetAlbumList "byYear" parameters).run log =
          ((none, some (errors.New
            "Required argument fromYear was not found when using GetAlbumList byYear")), log) ∨
        (s.GetAlbumList "byYear" parameters).run log =
          ((none, some (errors.New
            "Required argument toYear was not found when using GetAlbumList byYear")), log)) ↔
      (parameters.get "fromYear" = none ∨ parameters.get "toYear" = none)) ∧
    (((s.GetAlbumList2 "byYear" parameters).run log =
          ((none, some (errors.New
            "Required argument fromYear was not found when using GetAlbumList2 byYear")), log) ∨
        (s.GetAlbumList2 "byYear" parameters).run log =
          ((none, some (errors.New
            "Required argument toYear was not found when using GetAlbumList2 byYear")), log)) ↔
      (parameters.get "fromYear" = none ∨ parameters.get "toYear" = none)) ∧
    (parameters.get "fromYear" ≠ none ∧ parameters.get "toYear" ≠ none →
      ∃ p : Table String,
        ((s.GetAlbumList "byYear" parameters).run log).2 =
          log ++ [⟨"getAlbumList", some p⟩] ∧
        ((s.GetAlbumList2 "byYear" parameters).run log).2 =
          log ++ [⟨"getAlbumList2", some p⟩]) := by
  have hv : ¬ validateListType "byYear" = false := by decide
  refine ⟨?_, ?_, ?_⟩
  · rw [GetAlbumList_run, if_neg hv]
    cases hf : parameters.get "fromYear" <;> cases ht : parameters.get "toYear" <;>
      simp [errors.New]
    exact ⟨pair_append_singleton_ne _ _ _ _, pair_append_singleton_ne _ _ _ _⟩
  · rw [GetAlbumList2_run, if_neg hv]
    cases hf : parameters.get "fromYear" <;> cases ht : parameters.get "toYear" <;>
      simp [errors.New]
    exact ⟨pair_append_singleton_ne _ _ _ _, pair_append_singleton_ne _ _ _ _⟩
  · intro h
    refine ⟨assignAll (Table.make.set "type" "byYear") parameters.range, ?_, ?_⟩
    · rw [GetAlbumList_run_of_valid s "byYear" parameters log (by decide) (fun _ => h)
        (fun hg => absurd hg (by decide))]
    · rw [GetAlbumList2_run_of_valid s "byYear" parameters log (by decide) (fun _ => h)
        (fun hg => absurd hg (by decide))]

/-- Witness of `albumList_byYear_requires_years`: with
`{"fromYear": "1990", "toYear": "2000"}` both operations call the transport. -/
theorem albumList_byYear_requires_years_witness :
    (callerWithYears.get "fromYear" ≠ none ∧ callerWithYears.get "toYear" ≠ none) ∧
    ∃ p : Table String,
      ((stubClient.GetAlbumList "byYear" callerWithYears).run []).2 =
        [] ++ [⟨"getAlbumList", some p⟩] ∧
      ((stubClient.GetAlbumList2 "byYear" callerWithYears).run []).2 =
        [] ++ [⟨"getAlbumList2", some p⟩] :=
  ⟨by decide, (albumList_byYear_requires_years stubClient callerWithYears []).2.2 (by decide)⟩

/-- C5: with list type `"byGenre"`, `GetAlbumList` and `GetAlbumList2` return a
nil result with the error "Required argument genre was not found ..." and make
no transport call if and only if the key `"genre"` is absent from the parameter
set; when it is present each makes its transport call, whether or not
`"fromYear"` and `"toYear"` are present. -/
theorem albumList_byGenre_requires_genre (s : SubsonicClient Album Song NowPlaying)
    (parameters : GoMap String) (log : List Call) :
    ((s.GetAlbumList "byGenre" parameters).run log =
        ((none, some (errors.New
          "Required argument genre was not found when using GetAlbumList byGenre")), log) ↔
      parameters.get "genre" = none) ∧
    ((s.GetAlbumList2 "byGenre" parameters).run log =
        ((none, some (errors.New
          "Required argument genre was not found when using GetAlbumList2 byGenre")), log) ↔
      parameters.get "genre" = none) ∧
    (parameters.get "genre" ≠ none →
      ∃ p : Table String,
        ((s.GetAlbumList "byGenre" parameters).run log).2 =
          log ++ [⟨"getAlbumList", some p⟩] ∧
        ((s.GetAlbumList2 "byGenre" parameters).run log).2 =
          log ++ [⟨"getAlbumList2", some p⟩]) := by
  have hv : ¬ validateListType "byGenre" = false := by decide
  have hy : ¬ "byGenre" = "byYear" := by decide
  refine ⟨?_, ?_, ?_⟩
  · rw [GetAlbumList_run, if_neg hv]
    cases hf : parameters.get "genre" <;> simp [errors.New, hy]
    exact pair_append_singleton_ne _ _ _ _
  · rw [GetAlbumList2_run, if_neg hv]
    cases hf : parameters.get "genre" <;> simp [errors.New, hy]
    exact pair_append_singleton_ne _ _ _ _
  · intro h
    refine ⟨assignAll (Table.make.set "type" "byGenre") parameters.range, ?_, ?_⟩
    · rw [GetAlbumList_run_of_valid s "byGenre" parameters log (by decide)
        (fun hb => absurd hb hy) (fun _ => h)]
    · rw [GetAlbumList2_run_of_valid s "byGenre" parameters log (by decide)
        (fun hb => absurd hb hy) (fun _ => h)]

/-- Witness of `albumList_byGenre_requires_genre`: with `{"genre": "Jazz"}`,
which has neither `"fromYear"` nor `"toYear"`, both operations call the
transport. -/
theorem albumList_byGenre_requires_genre_witness :
    (callerWithGenre.get "genre" ≠ none ∧ callerWithGenre.get "fromYear" = none ∧
      callerWithGenre.get "toYear" = none) ∧
    ∃ p : Table String,
      ((stubClient.GetAlbumList "byGenre" callerWithGenre).run []).2 =
        [] ++ [⟨"getAlbumList", some p⟩] ∧
      ((stubClient.GetAlbumList2 "byGenre" callerWithGenre).run []).2 =
        [] ++ [⟨"getAlbumList2", some p⟩] :=
  ⟨by decide, (albumList_byGenre_requires_genre stubClient callerWithGenre []).2.2 (by decide)⟩

/-- C7: for every list type of the enum other than `byYear` and `byGenre`, an
empty parameter set and a transport that answers the endpoint without error,
`GetAlbumList` makes exactly one transport call, to `"getAlbumList"` with the
parameter set whose only entry is `"type" -> listType`, and returns the
`AlbumList.Albums` of the answer with a nil error; `GetAlbumList2` does the same
with `"getAlbumList2"` and `AlbumList2.Albums`. -/
theorem albumList_plain_type_forwards_type_only (s : SubsonicClient Album Song NowPlaying)
    (listType : String) (log : List Call)
    (hlt : listType ∈ ["random", "newest", "highest", "frequent", "recent",
      "alphabeticalByName", "alphabeticalByArtist", "starred"])
    (hok : ∀ params, (s.transport "getAlbumList" params).2 = none)
    (hok2 : ∀ params, (s.transport "getAlbumList2" params).2 = none) :
    ∃ p : Table String, p.entries = [("type", listType)] ∧
      (s.GetAlbumList listType (some Table.make)).run log =
        (((s.transport "getAlbumList" (some p)).1.AlbumList.Albums, none),
          log ++ [⟨"getAlbumList", some p⟩]) ∧
      (s.GetAlbumList2 listType (some Table.make)).run log =
        (((s.transport "getAlbumList2" (some p)).1.AlbumList2.Albums, none),
          log ++ [⟨"getAlbumList2", some p⟩]) := by
  have hv : listType ∈ ["random", "newest", "highest", "frequent", "recent",
      "alphabeticalByName", "alphabeticalByArtist", "starred", "byYear", "byGenre"] := by
    simp only [List.mem_cons, List.mem_singleton, List.not_mem_nil, or_false] at hlt ⊢
    tauto
  have hy : ¬ listType = "byYear" := by
    intro h
    subst h
    exact absurd hlt (by decide)
  have hg : ¬ listType = "byGenre" := by
    intro h
    subst h
    exact absurd hlt (by decide)
  refine ⟨Table.make.set "type" listType, rfl, ?_, ?_⟩
  · rw [GetAlbumList_run_of_valid s listType (some Table.make) log hv (fun h => absurd h hy)
      (fun h => absurd h hg)]
    simp [answer, hok, GoMap.range, Table.make, assignAll]
  · rw [GetAlbumList2_run_of_valid s listType (some Table.make) log hv (fun h => absurd h hy)
      (fun h => absurd h hg)]
    simp [answer, hok2, GoMap.range, Table.make, assignAll]

/-- Witness of `albumList_plain_type_forwards_type_only`: list type `"random"`
against the stub that always succeeds. -/
theorem albumList_plain_type_forwards_type_only_witness :
    "random" ∈ ["random", "newest", "highest", "frequent", "recent",
      "alphabeticalByName", "alphabeticalByArtist", "starred"] ∧
    ∃ p : Table String, p.entries = [("type", "random")] ∧
      (stubClient.GetAlbumList "random" (some Table.make)).run [] =
        (((stubClient.transport "getAlbumList" (some p)).1.AlbumList.Albums, none),
          [] ++ [⟨"getAlbumList", some p⟩]) ∧
      (stubClient.GetAlbumList2 "random" (some Table.make)).run [] =
        (((stubClient.transport "getAlbumList2" (some p)).1.AlbumList2.Albums, none),
          [] ++ [⟨"getAlbumList2", some p⟩]) :=
  ⟨by decide,
    albumList_plain_type_forwards_type_only stubClient "random" [] (by decide)
      (fun _ => rfl) (fun _ => rfl)⟩

/-- C8: for every genre name and every caller parameter set without a
`"genre"` key, `GetSongsByGenre` makes exactly one transport call, to
`"getSongsByGenre"`, with a parameter set whose entries are `"genre" -> name`
and the caller's entries and nothing else; when the transport answers without
error it returns the `SongsByGenre.Songs` of the answer with a nil error. -/
theorem songsByGenre_forwards_genre_and_caller_entries
    (s : SubsonicClient Album Song NowPlaying) (name : String) (parameters : GoMap String)
    (log : List Call) (h : parameters.get "genre" = none) :
    ∃ p : Table String,
      p.entries = ("genre", name) :: parameters.range ∧
      (∀ k, p.get k = if k = "genre" then some name else parameters.get k) ∧
      ((s.GetSongsByGenre name parameters).run log).2 =
        log ++ [⟨"getSongsByGenre", some p⟩] ∧
      ((s.transport "getSongsByGenre" (some p)).2 = none →
        ((s.GetSongsByGenre name parameters).run log).1 =
          ((s.transport "getSongsByGenre" (some p)).1.SongsByGenre.Songs, none)) := by
  have hnone : getEntry "genre" parameters.range = none := by
    rw [← GoMap.get_eq_getEntry_range]
    exact h
  have hnot : "genre" ∉ keysOf parameters.range := (getEntry_eq_none_iff _ _).mp hnone
  have hentries : (assignAll (Table.make.set "genre" name) parameters.range).entries =
      ("genre", name) :: parameters.range :=
    entries_assignAll_of_disjoint parameters.range (Table.make.set "genre" name)
      (GoMap.nodup_range parameters) (by
        intro k hk hmem
        have hkg : k = "genre" := by
          simpa [Table.set, Table.make, setEntry, keysOf] using hmem
        subst hkg
        exact hnot hk)
  refine ⟨assignAll (Table.make.set "genre" name) parameters.range, hentries, ?_, ?_, ?_⟩
  · intro k
    by_cases hk : k = "genre"
    · subst hk
      rw [if_pos rfl, get_genre_songParams, h]
      rfl
    · rw [if_neg hk, GoMap.get_eq_getEntry_range]
      simp only [Table.get, hentries, getEntry]
      rw [if_neg (fun hh => hk hh.symm)]
  · rw [GetSongsByGenre_run]
  · intro hok
    rw [GetSongsByGenre_run]
    simp [answer, hok]

/-- Witness of `songsByGenre_forwards_genre_and_caller_entries`:
`GetSongsByGenre("Rock", {"count": "5"})`. -/
theorem songsByGenre_forwards_genre_and_caller_entries_witness :
    callerWithCount.get "genre" = none ∧
    ∃ p : Table String,
      p.entries = ("genre", "Rock") :: callerWithCount.range ∧
      (∀ k, p.get k = if k = "genre" then some "Rock" else callerWithCount.get k) ∧
      ((stubClient.GetSongsByGenre "Rock" callerWithCount).run []).2 =
        [] ++ [⟨"getSongsByGenre", some p⟩] ∧
      ((stubClient.transport "getSongsByGenre" (some p)).2 = none →
        ((stubClient.GetSongsByGenre "Rock" callerWithCount).run []).1 =
          ((stubClient.transport "getSongsByGenre" (some p)).1.SongsByGenre.Songs, none)) :=
  ⟨by decide,
    songsByGenre_forwards_genre_and_caller_entries stubClient "Rock" callerWithCount []
      (by decide)⟩

/-- C9: each of the five operations, on an input that passes its validation,
makes exactly one transport call, and whenever the answer of the transport to
that call carries an error `e`, the operation returns a nil result together
with that same `e`. -/
theorem transport_error_returned_unchanged (s : SubsonicClient Album Song NowPlaying)
    (listType name : String) (parameters songParameters : GoMap String) (log : List Call)
    (hv : listType ∈ ["random", "newest", "highest", "frequent", "recent", "alphabeticalByName",
      "alphabeticalByArtist", "starred", "byYear", "byGenre"])
    (hy : listType = "byYear" →
      parameters.get "fromYear" ≠ none ∧ parameters.get "toYear" ≠ none)
    (hg : listType = "byGenre" → parameters.get "genre" ≠ none) :
    (∃ c : Call, c.endpoint = "getAlbumList" ∧
      ((s.GetAlbumList listType parameters).run log).2 = log ++ [c] ∧
      ∀ e, (s.transport c.endpoint c.params).2 = some e →
        ((s.GetAlbumList listType parameters).run log).1 = (none, some e)) ∧
    (∃ c : Call, c.endpoint = "getAlbumList2" ∧
      ((s.GetAlbumList2 listType parameters).run log).2 = log ++ [c] ∧
      ∀ e, (s.transport c.endpoint c.params).2 = some e →
        ((s.GetAlbumList2 listType parameters).run log).1 = (none, some e)) ∧
    (∃ c : Call, c.endpoint = "getRandomSongs" ∧
      ((s.GetRandomSongs songParameters).run log).2 = log ++ [c] ∧
      ∀ e, (s.transport c.endpoint c.params).2 = some e →
        ((s.GetRandomSongs songParameters).run log).1 = (none, some e)) ∧
    (∃ c : Call, c.endpoint = "getSongsByGenre" ∧
      ((s.GetSongsByGenre name songParameters).run log).2 = log ++ [c] ∧
      ∀ e, (s.transport c.endpoint c.params).2 = some e →
        ((s.GetSongsByGenre name songParameters).run log).1 = (none, some e)) ∧
    (∃ c : Call, c.endpoint = "getNowPlaying" ∧
      (s.GetNowPlaying.run log).2 = log ++ [c] ∧
      ∀ e, (s.transport c.endpoint c.params).2 = some e →
        (s.GetNowPlaying.run log).1 = (none, some e)) := by
  refine ⟨⟨⟨"getAlbumList",
        some (assignAll (Table.make.set "type" listType) parameters.range)⟩, rfl, ?_, ?_⟩,
    ⟨⟨"getAlbumList2",
        some (assignAll (Table.make.set "type" listType) parameters.range)⟩, rfl, ?_, ?_⟩,
    ⟨⟨"getRandomSongs", songParameters⟩, rfl, ?_, ?_⟩,
    ⟨⟨"getSongsByGenre",
        some (assignAll (Table.make.set "genre" name) songParameters.range)⟩, rfl, ?_, ?_⟩,
    ⟨⟨"getNowPlaying", none⟩, rfl, ?_, ?_⟩⟩
  · rw [GetAlbumList_run_of_valid s listType parameters log hv hy hg]
  · intro e he
    rw [GetAlbumList_run_of_valid s listType parameters log hv hy hg]
    simp only [answer, he, Option.isSome_some, if_true]
  · rw [GetAlbumList2_run_of_valid s listType parameters log hv hy hg]
  · intro e he
    rw [GetAlbumList2_run_of_valid s listType parameters log hv hy hg]
    simp only [answer, he, Option.isSome_some, if_true]
  · rw [GetRandomSongs_run]
  · intro e he
    rw [GetRandomSongs_run]
    simp only [answer, he, Option.isSome_some, if_true]
  · rw [GetSongsByGenre_run]
  · intro e he
    rw [GetSongsByGenre_run]
    simp only [answer, he, Option.isSome_some, if_true]
  · rw [GetNowPlaying_run]
  · intro e he
    rw [GetNowPlaying_run]
    simp only [answer, he, Option.isSome_some, if_true]

/-- Witness of `transport_error_returned_unchanged`: the five operations
against the stub that fails every call with "connection refused". -/
theorem transport_error_returned_unchanged_witness :
    "random" ∈ ["random", "newest", "highest", "frequent", "recent", "alphabeticalByName",
      "alphabeticalByArtist", "starred", "byYear", "byGenre"] ∧
    ((∃ c : Call, c.endpoint = "getAlbumList" ∧
      ((failingClient.GetAlbumList "random" callerEmpty).run []).2 = [] ++ [c] ∧
      ∀ e, (failingClient.transport c.endpoint c.params).2 = some e →
        ((failingClient.GetAlbumList "random" callerEmpty).run []).1 = (none, some e)) ∧
    (∃ c : Call, c.endpoint = "getAlbumList2" ∧
      ((failingClient.GetAlbumList2 "random" callerEmpty).run []).2 = [] ++ [c] ∧
      ∀ e, (failingClient.transport c.endpoint c.params).2 = some e →
        ((failingClient.GetAlbumList2 "random" callerEmpty).run []).1 = (none, some e)) ∧
    (∃ c : Call, c.endpoint = "getRandomSongs" ∧
      ((failingClient.GetRandomSongs callerWithCount).run []).2 = [] ++ [c] ∧
      ∀ e, (failingClient.transport c.endpoint c.params).2 = some e →
        ((failingClient.GetRandomSongs callerWithCount).run []).1 = (none, some e)) ∧
    (∃ c : Call, c.endpoint = "getSongsByGenre" ∧
      ((failingClient.GetSongsByGenre "Rock" callerWithCount).run []).2 = [] ++ [c] ∧
      ∀ e, (failingClient.transport c.endpoint c.params).2 = some e →
        ((failingClient.GetSongsByGenre "Rock" callerWithCount).run []).1 = (none, some e)) ∧
    (∃ c : Call, c.endpoint = "getNowPlaying" ∧
      (failingClient.GetNowPlaying.run []).2 = [] ++ [c] ∧
      ∀ e, (failingClient.transport c.endpoint c.params).2 = some e →
        (failingClient.GetNowPlaying.run []).1 = (none, some e))) :=
  ⟨by decide,
    transport_error_returned_unchanged failingClient "random" "Rock" callerEmpty
      callerWithCount [] (by decide) (by decide) (by decide)⟩

/-- C10: `GetAlbumList` and `GetAlbumList2` go the same way on every list type
and parameter set.  Either both return, without a transport call, the error for
an invalid list type; or both return, without a transport call, the error for
the missing key `fromYear`; or both that for `toYear`; or both that for
`genre`; or both make one transport call with one and the same parameter set
`p`, to `"getAlbumList"` and `"getAlbumList2"`, and return from the answer the
sub-section `AlbumList.Albums` and `AlbumList2.Albums`. -/
theorem albumList_variants_agree (s : SubsonicClient Album Song NowPlaying) (listType : String)
    (parameters : GoMap String) (log : List Call) :
    ((s.GetAlbumList listType parameters).run log =
        ((none, some (fmt.Errorf "List type " listType
          " is invalid, see http://www.subsonic.org/pages/api.jsp#getAlbumList")), log) ∧
      (s.GetAlbumList2 listType parameters).run log =
        ((none, some (fmt.Errorf "List type " listType
          " is invalid, see http://www.subsonic.org/pages/api.jsp#getAlbumList")), log)) ∨
    ((s.GetAlbumList listType parameters).run log =
        ((none, some (errors.New
          "Required argument fromYear was not found when using GetAlbumList byYear")), log) ∧
      (s.GetAlbumList2 listType parameters).run log =
        ((none, some (errors.New
          "Required argument fromYear was not found when using GetAlbumList2 byYear")), log)) ∨
    ((s.GetAlbumList listType parameters).run log =
        ((none, some (errors.New
          "Required argument toYear was not found when using GetAlbumList byYear")), log) ∧
      (s.GetAlbumList2 listType parameters).run log =
        ((none, some (errors.New
          "Required argument toYear was not found when using GetAlbumList2 byYear")), log)) ∨
    ((s.GetAlbumList listType parameters).run log =
        ((none, some (errors.New
          "Required argument genre was not found when using GetAlbumList byGenre")), log) ∧
      (s.GetAlbumList2 listType parameters).run log =
        ((none, some (errors.New
          "Required argument genre was not found when using GetAlbumList2 byGenre")), log)) ∨
    (∃ p : Table String,
      (s.GetAlbumList listType parameters).run log =
        (answer (fun r => r.AlbumList.Albums) (s.transport "getAlbumList" (some p)),
          log ++ [⟨"getAlbumList", some p⟩]) ∧
      (s.GetAlbumList2 listType parameters).run log =
        (answer (fun r => r.AlbumList2.Albums) (s.transport "getAlbumList2" (some p)),
          log ++ [⟨"getAlbumList2", some p⟩])) := by
  rw [GetAlbumList_run, GetAlbumList2_run]
  by_cases hv : validateListType listType = false
  · rw [if_pos hv, if_pos hv]
    exact Or.inl ⟨rfl, rfl⟩
  · rw [if_neg hv, if_neg hv]
    by_cases h1 : listType = "byYear" ∧ parameters.get "fromYear" = none
    · rw [if_pos h1, if_pos h1]
      exact Or.inr (Or.inl ⟨rfl, rfl⟩)
    · rw [if_neg h1, if_neg h1]
      by_cases h2 : listType = "byYear" ∧ parameters.get "toYear" = none
      · rw [if_pos h2, if_pos h2]
        exact Or.inr (Or.inr (Or.inl ⟨rfl, rfl⟩))
      · rw [if_neg h2, if_neg h2]
        by_cases h3 : listType = "byGenre" ∧ parameters.get "genre" = none
        · rw [if_pos h3, if_pos h3]
          exact Or.inr (Or.inr (Or.inr (Or.inl ⟨rfl, rfl⟩)))
        · rw [if_neg h3, if_neg h3]
          exact Or.inr (Or.inr (Or.inr (Or.inr ⟨_, rfl, rfl⟩)))

/-- C11: for every parameter set, the nil map included, `GetRandomSongs` checks
nothing, makes exactly one transport call, to `"getRandomSongs"` with the
caller's parameter set as it was given, and when the transport answers without
error it returns the `RandomSongs.Songs` of the answer with a nil error. -/
theorem randomSongs_passes_parameters_through (s : SubsonicClient Album Song NowPlaying)
    (parameters : GoMap String) (log : List Call) :
    ((s.GetRandomSongs parameters).run log).2 = log ++ [⟨"getRandomSongs", parameters⟩] ∧
    ((s.transport "getRandomSongs" parameters).2 = none →
      ((s.GetRandomSongs parameters).run log).1 =
        ((s.transport "getRandomSongs" parameters).1.RandomSongs.Songs, none)) := by
  rw [GetRandomSongs_run]
  refine ⟨rfl, ?_⟩
  intro hok
  simp [answer, hok]

/-- Witness of `randomSongs_passes_parameters_through`: the nil parameter set
against the stub that always succeeds. -/
theorem randomSongs_passes_parameters_through_witness :
    (stubClient.transport "getRandomSongs" none).2 = none ∧
    ((stubClient.GetRandomSongs none).run []).2 = [] ++ [⟨"getRandomSongs", none⟩] ∧
    ((stubClient.GetRandomSongs none).run []).1 =
      ((stubClient.transport "getRandomSongs" none).1.RandomSongs.Songs, none) :=
  ⟨rfl, (randomSongs_passes_parameters_through stubClient none []).1,
    (randomSongs_passes_parameters_through stubClient none []).2 rfl⟩

/-- C12: `GetNowPlaying` makes exactly one transport call, to `"getNowPlaying"`
with the nil parameter set, and for every answer of the transport without error
it returns the `NowPlaying.Entries` of the answer as they are, an empty list
included, with a nil error. -/
theorem nowPlaying_returns_entries (s : SubsonicClient Album Song NowPlaying)
    (log : List Call) :
    (s.GetNowPlaying.run log).2 = log ++ [⟨"getNowPlaying", none⟩] ∧
    ((s.transport "getNowPlaying" none).2 = none →
      (s.GetNowPlaying.run log).1 =
        ((s.transport "getNowPlaying" none).1.NowPlaying.Entries, none)) := by
  rw [GetNowPlaying_run]
  refine ⟨rfl, ?_⟩
  intro hok
  simp [answer, hok]

/-- Witness of `nowPlaying_returns_entries`: the stub envelope has an empty
list of entries, and the empty list is what is returned. -/
theorem nowPlaying_returns_entries_witness :
    (stubClient.transport "getNowPlaying" none).2 = none ∧
    (stubClient.transport "getNowPlaying" none).1.NowPlaying.Entries = some [] ∧
    (stubClient.GetNowPlaying.run []).2 = [] ++ [⟨"getNowPlaying", none⟩] ∧
    (stubClient.GetNowPlaying.run []).1 =
      ((stubClient.transport "getNowPlaying" none).1.NowPlaying.Entries, none) :=
  ⟨rfl, rfl, (nowPlaying_returns_entries stubClient []).1,
    (nowPlaying_returns_entries stubClient []).2 rfl⟩

/-- C13: for every list type outside the enum, `GetAlbumList` and
`GetAlbumList2` return an error whose text mentions the list type that was
passed and mentions the address of the API documentation. -/
theorem invalid_type_error_mentions_value_and_documentation
    (s : SubsonicClient Album Song NowPlaying) (listType : String) (parameters : GoMap String)
    (log : List Call)
    (h : listType ∉ ["random", "newest", "highest", "frequent", "recent", "alphabeticalByName",
      "alphabeticalByArtist", "starred", "byYear", "byGenre"]) :
    ∃ e : GoError,
      (s.GetAlbumList listType parameters).run log = ((none, some e), log) ∧
      (s.GetAlbumList2 listType parameters).run log = ((none, some e), log) ∧
      Mentions e.text listType ∧
      Mentions e.text "http://www.subsonic.org/pages/api.jsp#getAlbumList" := by
  have hv : validateListType listType = false := by
    cases hb : validateListType listType with
    | false => rfl
    | true => exact absurd ((validateListType_iff listType).mp hb) h
  refine ⟨fmt.Errorf "List type " listType
    " is invalid, see http://www.subsonic.org/pages/api.jsp#getAlbumList", ?_, ?_, ?_, ?_⟩
  · rw [GetAlbumList_run, if_pos hv]
  · rw [GetAlbumList2_run, if_pos hv]
  · exact ⟨"List type ",
      " is invalid, see http://www.subsonic.org/pages/api.jsp#getAlbumList", rfl⟩
  · refine ⟨"List type " ++ listType ++ " is invalid, see ", "", ?_⟩
    have hsplit : " is invalid, see http://www.subsonic.org/pages/api.jsp#getAlbumList" =
        " is invalid, see " ++ "http://www.subsonic.org/pages/api.jsp#getAlbumList" := by
      decide
    simp only [fmt.Errorf]
    rw [hsplit, String.append_empty]
    simp only [String.append_assoc]

/-- Witness of `invalid_type_error_mentions_value_and_documentation`: the list
type `"Random"`. -/
theorem invalid_type_error_mentions_value_and_documentation_witness :
    "Random" ∉ ["random", "newest", "highest", "frequent", "recent", "alphabeticalByName",
      "alphabeticalByArtist", "starred", "byYear", "byGenre"] ∧
    ∃ e : GoError,
      (stubClient.GetAlbumList "Random" callerEmpty).run [] = ((none, some e), []) ∧
      (stubClient.GetAlbumList2 "Random" callerEmpty).run [] = ((none, some e), []) ∧
      Mentions e.text "Random" ∧
      Mentions e.text "http://www.subsonic.org/pages/api.jsp#getAlbumList" :=
  ⟨by decide,
    invalid_type_error_mentions_value_and_documentation stubClient "Random" callerEmpty []
      (by decide)⟩

/-- C14: each error for a missing required key names the operation and the
key.  When `"fromYear"` is absent under `byYear`, when `"toYear"` is absent
under `byYear` (with `"fromYear"` present), and when `"genre"` is absent under
`byGenre`, the error of `GetAlbumList` mentions `GetAlbumList` and the key, the
error of `GetAlbumList2` mentions `GetAlbumList2` and the key, and the two
errors differ. -/
theorem missing_key_error_mentions_operation_and_key
    (s : SubsonicClient Album Song NowPlaying) (parameters : GoMap String) (log : List Call) :
    (parameters.get "fromYear" = none →
      ∃ e e2 : GoError,
        (s.GetAlbumList "byYear" parameters).run log = ((none, some e), log) ∧
        (s.GetAlbumList2 "byYear" parameters).run log = ((none, some e2), log) ∧
        Mentions e.text "GetAlbumList" ∧ Mentions e.text "fromYear" ∧
        Mentions e2.text "GetAlbumList2" ∧ Mentions e2.text "fromYear" ∧ e ≠ e2) ∧
    (parameters.get "fromYear" ≠ none → parameters.get "toYear" = none →
      ∃ e e2 : GoError,
        (s.GetAlbumList "byYear" parameters).run log = ((none, some e), log) ∧
        (s.GetAlbumList2 "byYear" parameters).run log = ((none, some e2), log) ∧
        Mentions e.text "GetAlbumList" ∧ Mentions e.text "toYear" ∧
        Mentions e2.text "GetAlbumList2" ∧ Mentions e2.text "toYear" ∧ e ≠ e2) ∧
    (parameters.get "genre" = none →
      ∃ e e2 : GoError,
        (s.GetAlbumList "byGenre" parameters).run log = ((none, some e), log) ∧
        (s.GetAlbumList2 "byGenre" parameters).run log = ((none, some e2), log) ∧
        Mentions e.text "GetAlbumList" ∧ Mentions e.text "genre" ∧
        Mentions e2.text "GetAlbumList2" ∧ Mentions e2.text "genre" ∧ e ≠ e2) := by
  have hvy : ¬ validateListType "byYear" = false := by decide
  have hvg : ¬ validateListType "byGenre" = false := by decide
  have hgy : ¬ "byGenre" = "byYear" := by decide
  refine ⟨?_, ?_, ?_⟩
  · intro hf
    refine ⟨errors.New "Required argument fromYear was not found when using GetAlbumList byYear",
      errors.New "Required argument fromYear was not found when using GetAlbumList2 byYear",
      ?_, ?_, ?_, ?_, ?_, ?_, ?_⟩
    · rw [GetAlbumList_run, if_neg hvy, if_pos ⟨rfl, hf⟩]
    · rw [GetAlbumList2_run, if_neg hvy, if_pos ⟨rfl, hf⟩]
    · exact ⟨"Required argument fromYear was not found when using ", " byYear", by decide⟩
    · exact ⟨"Required argument ", " was not found when using GetAlbumList byYear", by decide⟩
    · exact ⟨"Required argument fromYear was not found when using ", " byYear", by decide⟩
    · exact ⟨"Required argument ", " was not found when using GetAlbumList2 byYear", by decide⟩
    · decide
  · intro hf ht
    have h1 : ¬ ("byYear" = "byYear" ∧ parameters.get "fromYear" = none) := fun h => hf h.2
    refine ⟨errors.New "Required argument toYear was not found when using GetAlbumList byYear",
      errors.New "Required argument toYear was not found when using GetAlbumList2 byYear",
      ?_, ?_, ?_, ?_, ?_, ?_, ?_⟩
    · rw [GetAlbumList_run, if_neg hvy, if_neg h1, if_pos ⟨rfl, ht⟩]
    · rw [GetAlbumList2_run, if_neg hvy, if_neg h1, if_pos ⟨rfl, ht⟩]
    · exact ⟨"Required argument toYear was not found when using ", " byYear", by decide⟩
    · exact ⟨"Required argument ", " was not found when using GetAlbumList byYear", by decide⟩
    · exact ⟨"Required argument toYear was not found when using ", " byYear", by decide⟩
    · exact ⟨"Required argument ", " was not found when using GetAlbumList2 byYear", by decide⟩
    · decide
  · intro hg
    have h1 : ¬ ("byGenre" = "byYear" ∧ parameters.get "fromYear" = none) := fun h => hgy h.1
    have h2 : ¬ ("byGenre" = "byYear" ∧ parameters.get "toYear" = none) := fun h => hgy h.1
    refine ⟨errors.New "Required argument genre was not found when using GetAlbumList byGenre",
      errors.New "Required argument genre was not found when using GetAlbumList2 byGenre",
      ?_, ?_, ?_, ?_, ?_, ?_, ?_⟩
    · rw [GetAlbumList_run, if_neg hvg, if_neg h1, if_neg h2, if_pos ⟨rfl, hg⟩]
    · rw [GetAlbumList2_run, if_neg hvg, if_neg h1, if_neg h2, if_pos ⟨rfl, hg⟩]
    · exact ⟨"Required argument genre was not found when using ", " byGenre", by decide⟩
    · exact ⟨"Required argument ", " was not found when using GetAlbumList byGenre", by decide⟩
    · exact ⟨"Required argument genre was not found when using ", " byGenre", by decide⟩
    · exact ⟨"Required argument ", " was not found when using GetAlbumList2 byGenre", by decide⟩
    · decide

/-- Witness of `missing_key_error_mentions_operation_and_key`: the empty
parameter set lacks `"fromYear"` and `"genre"`. -/
theorem missing_key_error_mentions_operation_and_key_witness :
    (callerEmpty.get "fromYear" = none ∧ callerEmpty.get "genre" = none) ∧
    (∃ e e2 : GoError,
      (stubClient.GetAlbumList "byYear" callerEmpty).run [] = ((none, some e), []) ∧
      (stubClient.GetAlbumList2 "byYear" callerEmpty).run [] = ((none, some e2), []) ∧
      Mentions e.text "GetAlbumList" ∧ Mentions e.text "fromYear" ∧
      Mentions e2.text "GetAlbumList2" ∧ Mentions e2.text "fromYear" ∧ e ≠ e2) ∧
    (∃ e e2 : GoError,
      (stubClient.GetAlbumList "byGenre" callerEmpty).run [] = ((none, some e), []) ∧
      (stubClient.GetAlbumList2 "byGenre" callerEmpty).run [] = ((none, some e2), []) ∧
      Mentions e.text "GetAlbumList" ∧ Mentions e.text "genre" ∧
      Mentions e2.text "GetAlbumList2" ∧ Mentions e2.text "genre" ∧ e ≠ e2) :=
  ⟨by decide,
    (missing_key_error_mentions_operation_and_key stubClient callerEmpty []).1 (by decide),
    (missing_key_error_mentions_operation_and_key stubClient callerEmpty []).2.2 (by decide)⟩

/-- C15: against a deterministic transport each of the five operations is
deterministic and keeps no state between calls: when the same call is made
twice, one after the other, both calls return the same result `r` (the same
value or the same error) and each adds the same transport calls `cs` (the same
endpoint and parameter set) to the list of calls, as a single call does. -/
theorem repeated_call_same_result_and_calls (s : SubsonicClient Album Song NowPlaying)
    (listType name : String) (parameters : GoMap String) (log : List Call) :
    (∃ (r : GoSlice Album × Option GoError) (cs : List Call),
      (s.GetAlbumList listType parameters).run log = (r, log ++ cs) ∧
      (s.GetAlbumList listType parameters >>= fun a =>
        s.GetAlbumList listType parameters >>= fun b => pure (a, b)).run log =
          ((r, r), log ++ cs ++ cs)) ∧
    (∃ (r : GoSlice Album × Option GoError) (cs : List Call),
      (s.GetAlbumList2 listType parameters).run log = (r, log ++ cs) ∧
      (s.GetAlbumList2 listType parameters >>= fun a =>
        s.GetAlbumList2 listType parameters >>= fun b => pure (a, b)).run log =
          ((r, r), log ++ cs ++ cs)) ∧
    (∃ (r : GoSlice Song × Option GoError) (cs : List Call),
      (s.GetRandomSongs parameters).run log = (r, log ++ cs) ∧
      (s.GetRandomSongs parameters >>= fun a =>
        s.GetRandomSongs parameters >>= fun b => pure (a, b)).run log =
          ((r, r), log ++ cs ++ cs)) ∧
    (∃ (r : GoSlice Song × Option GoError) (cs : List Call),
      (s.GetSongsByGenre name parameters).run log = (r, log ++ cs) ∧
      (s.GetSongsByGenre name parameters >>= fun a =>
        s.GetSongsByGenre name parameters >>= fun b => pure (a, b)).run log =
          ((r, r), log ++ cs ++ cs)) ∧
    (∃ (r : GoSlice NowPlaying × Option GoError) (cs : List Call),
      s.GetNowPlaying.run log = (r, log ++ cs) ∧
      (s.GetNowPlaying >>= fun a =>
        s.GetNowPlaying >>= fun b => pure (a, b)).run log =
          ((r, r), log ++ cs ++ cs)) := by
  refine ⟨?_, ?_, ?_, ?_, ?_⟩
  · obtain ⟨r, cs, h⟩ := GetAlbumList_run_append s listType parameters
    exact ⟨r, cs, h log, run_twice _ r cs h log⟩
  · obtain ⟨r, cs, h⟩ := GetAlbumList2_run_append s listType parameters
    exact ⟨r, cs, h log, run_twice _ r cs h log⟩
  · exact ⟨_, _, GetRandomSongs_run s parameters log,
      run_twice _ _ _ (GetRandomSongs_run s parameters) log⟩
  · exact ⟨_, _, GetSongsByGenre_run s name parameters log,
      run_twice _ _ _ (GetSongsByGenre_run s name parameters) log⟩
  · exact ⟨_, _, GetNowPlaying_run s log, run_twice _ _ _ (GetNowPlaying_run s) log⟩

/-- C16: for every list type and parameter set that pass validation,
`GetAlbumList` and `GetAlbumList2` forward one and the same parameter set; its
keys are exactly the caller's keys together with `"type"`, and every key the
caller supplied (`size`, `offset`, `musicFolderId`, `fromYear`, `toYear`,
`genre` or any other) is mapped to the value the caller gave. -/
theorem albumList_forwards_caller_entries (s : SubsonicClient Album Song NowPlaying)
    (listType : String) (parameters : GoMap String) (log : List Call)
    (hv : listType ∈ ["random", "newest", "highest", "frequent", "recent", "alphabeticalByName",
      "alphabeticalByArtist", "starred", "byYear", "byGenre"])
    (hy : listType = "byYear" →
      parameters.get "fromYear" ≠ none ∧ parameters.get "toYear" ≠ none)
    (hg : listType = "byGenre" → parameters.get "genre" ≠ none) :
    ∃ p : Table String,
      ((s.GetAlbumList listType parameters).run log).2 = log ++ [⟨"getAlbumList", some p⟩] ∧
      ((s.GetAlbumList2 listType parameters).run log).2 = log ++ [⟨"getAlbumList2", some p⟩] ∧
      (∀ k, p.get k ≠ none ↔ (k = "type" ∨ parameters.get k ≠ none)) ∧
      (∀ k v, parameters.get k = some v → p.get k = some v) := by
  refine ⟨assignAll (Table.make.set "type" listType) parameters.range, ?_, ?_, ?_, ?_⟩
  · rw [GetAlbumList_run_of_valid s listType parameters log hv hy hg]
  · rw [GetAlbumList2_run_of_valid s listType parameters log hv hy hg]
  · intro k
    rw [GoMap.get_eq_getEntry_range]
    cases h : getEntry k parameters.range with
    | some v =>
      rw [get_assignAll_of_some k v _ _ (GoMap.nodup_range parameters) h]
      simp
    | none =>
      rw [get_assignAll_of_none k _ _ h]
      by_cases hk : k = "type"
      · subst hk
        rw [Table.get_set_self]
        simp
      · rw [Table.get_set_of_ne _ _ _ _ hk]
        simp [hk, Table.get, Table.make, getEntry]
  · intro k v hkv
    rw [GoMap.get_eq_getEntry_range] at hkv
    exact get_assignAll_of_some k v _ _ (GoMap.nodup_range parameters) hkv

/-- Witness of `albumList_forwards_caller_entries`: list type `"byYear"` with
the caller parameters `{"fromYear": "1990", "toYear": "2000"}`. -/
theorem albumList_forwards_caller_entries_witness :
    "byYear" ∈ ["random", "newest", "highest", "frequent", "recent", "alphabeticalByName",
      "alphabeticalByArtist", "starred", "byYear", "byGenre"] ∧
    (callerWithYears.get "fromYear" ≠ none ∧ callerWithYears.get "toYear" ≠ none) ∧
    ∃ p : Table String,
      ((stubClient.GetAlbumList "byYear" callerWithYears).run []).2 =
        [] ++ [⟨"getAlbumList", some p⟩] ∧
      ((stubClient.GetAlbumList2 "byYear" callerWithYears).run []).2 =
        [] ++ [⟨"getAlbumList2", some p⟩] ∧
      (∀ k, p.get k ≠ none ↔ (k = "type" ∨ callerWithYears.get k ≠ none)) ∧
      (∀ k v, callerWithYears.get k = some v → p.get k = some v) :=
  ⟨by decide, by decide,
    albumList_forwards_caller_entries stubClient "byYear" callerWithYears [] (by decide)
      (by decide) (by decide)⟩

/-- C17: a nil parameter set is handled like an empty one.  `GetAlbumList`,
`GetAlbumList2` and `GetSongsByGenre` run on the nil map exactly as on an
allocated map without entries; with the nil map, `byYear` and `byGenre` return
the error for a missing required key without a transport call, every other
list type of the enum forwards the parameter set whose only entry is
`"type" -> listType`, and `GetSongsByGenre` forwards the parameter set whose
only entry is `"genre" -> name`.  On every input each of the five operations
returns: either a nil result with an error, or a result with a nil error. -/
theorem nil_parameters_handled_like_empty (s : SubsonicClient Album Song NowPlaying)
    (listType name : String) (parameters : GoMap String) (log : List Call) :
    ((s.GetAlbumList listType none).run log =
        (s.GetAlbumList listType (some Table.make)).run log ∧
      (s.GetAlbumList2 listType none).run log =
        (s.GetAlbumList2 listType (some Table.make)).run log ∧
      (s.GetSongsByGenre name none).run log =
        (s.GetSongsByGenre name (some Table.make)).run log) ∧
    ((s.GetAlbumList "byYear" none).run log =
        ((none, some (errors.New
          "Required argument fromYear was not found when using GetAlbumList byYear")), log) ∧
      (s.GetAlbumList2 "byYear" none).run log =
        ((none, some (errors.New
          "Required argument fromYear was not found when using GetAlbumList2 byYear")), log) ∧
      (s.GetAlbumList "byGenre" none).run log =
        ((none, some (errors.New
          "Required argument genre was not found when using GetAlbumList byGenre")), log) ∧
      (s.GetAlbumList2 "byGenre" none).run log =
        ((none, some (errors.New
          "Required argument genre was not found when using GetAlbumList2 byGenre")), log)) ∧
    (listType ∈ ["random", "newest", "highest", "frequent", "recent", "alphabeticalByName",
        "alphabeticalByArtist", "starred"] →
      ∃ p : Table String, p.entries = [("type", listType)] ∧
        ((s.GetAlbumList listType none).run log).2 = log ++ [⟨"getAlbumList", some p⟩] ∧
        ((s.GetAlbumList2 listType none).run log).2 = log ++ [⟨"getAlbumList2", some p⟩]) ∧
    (∃ p : Table String, p.entries = [("genre", name)] ∧
      ((s.GetSongsByGenre name none).run log).2 = log ++ [⟨"getSongsByGenre", some p⟩]) ∧
    (((∃ e, ((s.GetAlbumList listType parameters).run log).1 = (none, some e)) ∨
        (∃ x, ((s.GetAlbumList listType parameters).run log).1 = (x, none))) ∧
      ((∃ e, ((s.GetAlbumList2 listType parameters).run log).1 = (none, some e)) ∨
        (∃ x, ((s.GetAlbumList2 listType parameters).run log).1 = (x, none))) ∧
      ((∃ e, ((s.GetRandomSongs parameters).run log).1 = (none, some e)) ∨
        (∃ x, ((s.GetRandomSongs parameters).run log).1 = (x, none))) ∧
      ((∃ e, ((s.GetSongsByGenre name parameters).run log).1 = (none, some e)) ∨
        (∃ x, ((s.GetSongsByGenre name parameters).run log).1 = (x, none))) ∧
      ((∃ e, (s.GetNowPlaying.run log).1 = (none, some e)) ∨
        (∃ x, (s.GetNowPlaying.run log).1 = (x, none)))) := by
  have hvy : ¬ validateListType "byYear" = false := by decide
  have hvg : ¬ validateListType "byGenre" = false := by decide
  have hgy : ¬ "byGenre" = "byYear" := by decide
  refine ⟨⟨?_, ?_, ?_⟩, ⟨?_, ?_, ?_, ?_⟩, ?_, ?_, ?_, ?_, ?_, ?_, ?_⟩
  · rw [GetAlbumList_run, GetAlbumList_run]
    rfl
  · rw [GetAlbumList2_run, GetAlbumList2_run]
    rfl
  · rw [GetSongsByGenre_run, GetSongsByGenre_run]
    rfl
  · rw [GetAlbumList_run, if_neg hvy, if_pos ⟨rfl, rfl⟩]
  · rw [GetAlbumList2_run, if_neg hvy, if_pos ⟨rfl, rfl⟩]
  · rw [GetAlbumList_run, if_neg hvg, if_neg (fun h => hgy h.1), if_neg (fun h => hgy h.1),
      if_pos ⟨rfl, rfl⟩]
  · rw [GetAlbumList2_run, if_neg hvg, if_neg (fun h => hgy h.1), if_neg (fun h => hgy h.1),
      if_pos ⟨rfl, rfl⟩]
  · intro hlt
    have hv : listType ∈ ["random", "newest", "highest", "frequent", "recent",
        "alphabeticalByName", "alphabeticalByArtist", "starred", "byYear", "byGenre"] := by
      simp only [List.mem_cons, List.mem_singleton, List.not_mem_nil, or_false] at hlt ⊢
      tauto
    have hy : ¬ listType = "byYear" := by
      intro h
      subst h
      exact absurd hlt (by decide)
    have hg : ¬ listType = "byGenre" := by
      intro h
      subst h
      exact absurd hlt (by decide)
    refine ⟨Table.make.set "type" listType, rfl, ?_, ?_⟩
    · rw [GetAlbumList_run_of_valid s listType none log hv (fun h => absurd h hy)
        (fun h => absurd h hg)]
      rfl
    · rw [GetAlbumList2_run_of_valid s listType none log hv (fun h => absurd h hy)
        (fun h => absurd h hg)]
      rfl
  · refine ⟨Table.make.set "genre" name, rfl, ?_⟩
    rw [GetSongsByGenre_run]
    rfl
  · exact GetAlbumList_result_or_error s listType parameters log
  · exact GetAlbumList2_result_or_error s listType parameters log
  · rw [GetRandomSongs_run]
    exact run_answer_result_or_error _ _ _
  · rw [GetSongsByGenre_run]
    exact run_answer_result_or_error _ _ _
  · rw [GetNowPlaying_run]
    exact run_answer_result_or_error _ _ _

/-- Witness of `nil_parameters_handled_like_empty`: `GetAlbumList("random", nil)`
and `GetAlbumList2("random", nil)` forward the parameter set whose only entry
is `"type" -> "random"`. -/
theorem nil_parameters_handled_like_empty_witness :
    "random" ∈ ["random", "newest", "highest", "frequent", "recent", "alphabeticalByName",
      "alphabeticalByArtist", "starred"] ∧
    ∃ p : Table String, p.entries = [("type", "random")] ∧
      ((stubClient.GetAlbumList "random" none).run []).2 =
        [] ++ [⟨"getAlbumList", some p⟩] ∧
      ((stubClient.GetAlbumList2 "random" none).run []).2 =
        [] ++ [⟨"getAlbumList2", some p⟩] :=
  ⟨by decide,
    (nil_parameters_handled_like_empty stubClient "random" "Rock" none []).2.2.1 (by decide)⟩

/-- C18: `GetAlbumList`, `GetAlbumList2` and `GetSongsByGenre` do not modify
the caller's parameter map.  With maps as references into a memory, and the
caller's reference nil or the address of an allocated map: after the call the
caller's map has the content it had before, every map allocated before the call
has the content it had before, and the memory is either the same as before (the
call was rejected by validation) or has one more map, freshly allocated, which
is the parameter set handed to the transport; the transport failing or
succeeding makes no difference. -/
theorem caller_parameters_not_modified (s : SubsonicClient Album Song NowPlaying)
    (listType name : String) (parameters : MapRef) (m : Memory)
    (hr : ∀ a, parameters = some a → a < m.maps.length) :
    ((((InMemory.GetAlbumList s listType parameters).run m).2.deref parameters =
          m.deref parameters) ∧
      (∀ a, a < m.maps.length →
        ((InMemory.GetAlbumList s listType parameters).run m).2.maps.get? a = m.maps.get? a) ∧
      (((InMemory.GetAlbumList s listType parameters).run m).2 = m ∨
        ∃ p, ((InMemory.GetAlbumList s listType parameters).run m).2 =
          ⟨m.maps ++ [p], m.calls ++ [⟨"getAlbumList", some p⟩]⟩)) ∧
    ((((InMemory.GetAlbumList2 s listType parameters).run m).2.deref parameters =
          m.deref parameters) ∧
      (∀ a, a < m.maps.length →
        ((InMemory.GetAlbumList2 s listType parameters).run m).2.maps.get? a = m.maps.get? a) ∧
      (((InMemory.GetAlbumList2 s listType parameters).run m).2 = m ∨
        ∃ p, ((InMemory.GetAlbumList2 s listType parameters).run m).2 =
          ⟨m.maps ++ [p], m.calls ++ [⟨"getAlbumList2", some p⟩]⟩)) ∧
    ((((InMemory.GetSongsByGenre s name parameters).run m).2.deref parameters =
          m.deref parameters) ∧
      (∀ a, a < m.maps.length →
        ((InMemory.GetSongsByGenre s name parameters).run m).2.maps.get? a = m.maps.get? a) ∧
      (∃ p, ((InMemory.GetSongsByGenre s name parameters).run m).2 =
          ⟨m.maps ++ [p], m.calls ++ [⟨"getSongsByGenre", some p⟩]⟩)) := by
  have h1 := InMemory_GetAlbumList_memory s listType parameters m hr
  have h2 := InMemory_GetAlbumList2_memory s listType parameters m hr
  have h3 := InMemory_GetSongsByGenre_memory s name parameters m hr
  refine ⟨?_, ?_, ?_⟩
  · have hu := unchanged_of_extends m _ parameters hr
      (h1.imp id (fun ⟨p, hp⟩ => ⟨p, _, hp⟩))
    exact ⟨hu.1, hu.2, h1⟩
  · have hu := unchanged_of_extends m _ parameters hr
      (h2.imp id (fun ⟨p, hp⟩ => ⟨p, _, hp⟩))
    exact ⟨hu.1, hu.2, h2⟩
  · have hu := unchanged_of_extends m _ parameters hr
      (Or.inr (h3.imp (fun p hp => ⟨_, hp⟩)))
    exact ⟨hu.1, hu.2, h3⟩

/-- Witness of `caller_parameters_not_modified`: the caller's map
`{"type": "newest"}` at address 1 of `callerMemory`, list type `"random"` and
genre name `"Rock"`. -/
theorem caller_parameters_not_modified_witness :
    (∀ a, some 1 = some a → a < callerMemory.maps.length) ∧
    ((((InMemory.GetAlbumList stubClient "random" (some 1)).run callerMemory).2.deref (some 1) =
          callerMemory.deref (some 1)) ∧
      (∀ a, a < callerMemory.maps.length →
        ((InMemory.GetAlbumList stubClient "random" (some 1)).run callerMemory).2.maps.get? a =
          callerMemory.maps.get? a) ∧
      (((InMemory.GetAlbumList stubClient "random" (some 1)).run callerMemory).2 = callerMemory ∨
        ∃ p, ((InMemory.GetAlbumList stubClient "random" (some 1)).run callerMemory).2 =
          ⟨callerMemory.maps ++ [p], callerMemory.calls ++ [⟨"getAlbumList", some p⟩]⟩)) ∧
    ((((InMemory.GetAlbumList2 stubClient "random" (some 1)).run callerMemory).2.deref (some 1) =
          callerMemory.deref (some 1)) ∧
      (∀ a, a < callerMemory.maps.length →
        ((InMemory.GetAlbumList2 stubClient "random" (some 1)).run callerMemory).2.maps.get? a =
          callerMemory.maps.get? a) ∧
      (((InMemory.GetAlbumList2 stubClient "random" (some 1)).run callerMemory).2 = callerMemory ∨
        ∃ p, ((InMemory.GetAlbumList2 stubClient "random" (some 1)).run callerMemory).2 =
          ⟨callerMemory.maps ++ [p], callerMemory.calls ++ [⟨"getAlbumList2", some p⟩]⟩)) ∧
    ((((InMemory.GetSongsByGenre stubClient "Rock" (some 1)).run callerMemory).2.deref (some 1) =
          callerMemory.deref (some 1)) ∧
      (∀ a, a < callerMemory.maps.length →
        ((InMemory.GetSongsByGenre stubClient "Rock" (some 1)).run callerMemory).2.maps.get? a =
          callerMemory.maps.get? a) ∧
      (∃ p, ((InMemory.GetSongsByGenre stubClient "Rock" (some 1)).run callerMemory).2 =
          ⟨callerMemory.maps ++ [p], callerMemory.calls ++ [⟨"getSongsByGenre", some p⟩]⟩)) :=
  ⟨fun a h => Option.some.inj h ▸ (by decide),
    caller_parameters_not_modified stubClient "random" "Rock" (some 1) callerMemory
      (fun a h => Option.some.inj h ▸ (by decide))⟩

end Subsonic
